import Mathlib

/-!
Verification of the D3dDdi::Resource engine of DDrawCompat.

Shallow embedding of the representation-state tracker, materialization
engine, blit router, construction/fixup pipeline and presentation helpers
found in the repository source (`D3dDdi/Resource.cpp`).  Machine integers
(LONG, UINT) are modelled as `Int`/`Nat`; C integer division on `Int` is
truncation towards zero (`Int.tdiv`).  HRESULTs are modelled as `Int`
(negative = FAILED).  The per-subresource lock-data entry is the record of
the four validity flags plus the transient reference-locked flag; every
operation of the source touches exactly one lock-data entry per resource,
so operations are defined on a single entry and lifted pointwise.
-/

set_option autoImplicit false

/-- C `/` on LONG values: truncation towards zero. -/
def cdiv (a b : Int) : Int := Int.tdiv a b

/-- HRESULT S_OK. -/
def S_OK : Int := 0

/-- HRESULT S_FALSE. -/
def S_FALSE : Int := 1

/-- HRESULT E_FAIL (0x80004005 as a signed 32-bit value). -/
def E_FAIL : Int := -2147467259

/-- HRESULT E_ABORT (0x80004004 as a signed 32-bit value). -/
def E_ABORT : Int := -2147467260

/-- HRESULT E_OUTOFMEMORY (0x8007000E as a signed 32-bit value). -/
def E_OUTOFMEMORY : Int := -2147024882

/-- The FAILED macro: an HRESULT is a failure code iff it is negative. -/
def FAILED (hr : Int) : Bool := hr < 0

/-- Windows RECT: left/top/right/bottom pixel bounds, LONG fields. -/
structure WRect where
  left : Int
  top : Int
  right : Int
  bottom : Int
deriving DecidableEq, Repr

/-- IsRectEmpty: a RECT is empty iff its width or height is non-positive. -/
def WRect.isEmpty (r : WRect) : Bool := r.right ≤ r.left || r.bottom ≤ r.top

/-- OffsetRect: translate a RECT by (dx, dy). -/
def WRect.offset (r : WRect) (dx dy : Int) : WRect :=
  ⟨r.left + dx, r.top + dy, r.right + dx, r.bottom + dy⟩

/-- `calculateScaledRect` from the source: the aspect-ratio-preserving
rectangle of `srcRect` scaled into `dstRect`, centered, in coordinates
relative to the destination origin. -/
def calculateScaledRect (srcRect dstRect : WRect) : WRect :=
  let srcWidth := srcRect.right - srcRect.left
  let srcHeight := srcRect.bottom - srcRect.top
  let dstWidth := dstRect.right - dstRect.left
  let dstHeight := dstRect.bottom - dstRect.top
  let rect : WRect := ⟨0, 0, dstWidth, dstHeight⟩
  let rect :=
    if dstWidth * srcHeight > dstHeight * srcWidth then
      { rect with right := cdiv (dstHeight * srcWidth) srcHeight }
    else
      { rect with bottom := cdiv (dstWidth * srcHeight) srcWidth }
  rect.offset (cdiv (dstWidth - rect.right) 2) (cdiv (dstHeight - rect.bottom) 2)

theorem cdiv_eq_ediv {a b : Int} (ha : 0 ≤ a) (hb : 0 ≤ b) : cdiv a b = a / b :=
  Int.tdiv_eq_ediv ha hb

/-- C9: the presentation rectangle computed by `calculateScaledRect` on
non-empty source and destination rectangles preserves the source aspect
ratio under integer division (height `dstHeight` and width
`dstHeight*srcWidth/srcHeight` when `dstWidth*srcHeight > dstHeight*srcWidth`,
else width `dstWidth` and height `dstWidth*srcHeight/srcWidth`), is offset
by `((dstWidth - width)/2, (dstHeight - height)/2)`, and lies within the
destination rectangle `(0,0,dstWidth,dstHeight)`. -/
theorem c9_calculateScaledRect_centered_within
    (srcRect dstRect : WRect)
    (hsw : srcRect.left < srcRect.right) (hsh : srcRect.top < srcRect.bottom)
    (hdw : dstRect.left < dstRect.right) (hdh : dstRect.top < dstRect.bottom) :
    let srcWidth := srcRect.right - srcRect.left
    let srcHeight := srcRect.bottom - srcRect.top
    let dstWidth := dstRect.right - dstRect.left
    let dstHeight := dstRect.bottom - dstRect.top
    let r := calculateScaledRect srcRect dstRect
    (if dstWidth * srcHeight > dstHeight * srcWidth then
        r.bottom - r.top = dstHeight ∧ r.right - r.left = cdiv (dstHeight * srcWidth) srcHeight
      else
        r.right - r.left = dstWidth ∧ r.bottom - r.top = cdiv (dstWidth * srcHeight) srcWidth) ∧
    r.left = cdiv (dstWidth - (r.right - r.left)) 2 ∧
    r.top = cdiv (dstHeight - (r.bottom - r.top)) 2 ∧
    0 ≤ r.left ∧ 0 ≤ r.top ∧ r.right ≤ dstWidth ∧ r.bottom ≤ dstHeight ∧
    r.left ≤ r.right ∧ r.top ≤ r.bottom := by
  intro srcWidth srcHeight dstWidth dstHeight r
  have hsw' : 0 < srcWidth := by omega
  have hsh' : 0 < srcHeight := by omega
  have hdw' : 0 < dstWidth := by omega
  have hdh' : 0 < dstHeight := by omega
  by_cases hc : dstWidth * srcHeight > dstHeight * srcWidth
  · have hnum : (0:Int) ≤ dstHeight * srcWidth := by positivity
    have hq := cdiv_eq_ediv hnum (le_of_lt hsh')
    have hq0 : 0 ≤ dstHeight * srcWidth / srcHeight := Int.ediv_nonneg hnum (le_of_lt hsh')
    have hqle : dstHeight * srcWidth / srcHeight ≤ dstWidth := by
      calc dstHeight * srcWidth / srcHeight ≤ dstWidth * srcHeight / srcHeight :=
            Int.ediv_le_ediv hsh' (le_of_lt hc)
        _ = dstWidth := Int.mul_ediv_cancel _ (by omega)
    have hr : r = WRect.offset ⟨0, 0, dstHeight * srcWidth / srcHeight, dstHeight⟩
        (cdiv (dstWidth - dstHeight * srcWidth / srcHeight) 2) (cdiv (dstHeight - dstHeight) 2) := by
      show calculateScaledRect srcRect dstRect = _
      rw [calculateScaledRect]
      simp only [hq]
      rw [if_pos hc]
    have hdx0 : 0 ≤ dstWidth - dstHeight * srcWidth / srcHeight := by omega
    have e2 : cdiv (dstWidth - dstHeight * srcWidth / srcHeight) 2
        = (dstWidth - dstHeight * srcWidth / srcHeight) / 2 :=
      cdiv_eq_ediv hdx0 (by norm_num)
    have e1 : cdiv (dstHeight - dstHeight) 2 = 0 := by rw [sub_self]; rfl
    have e0 : cdiv (0:Int) 2 = 0 := rfl
    rw [hr, if_pos hc]
    simp only [WRect.offset, e1, e0, hq, add_zero, zero_add, sub_zero, add_sub_cancel_right,
      sub_self, e2, and_true, true_and]
    omega
  · have hnum : (0:Int) ≤ dstWidth * srcHeight := by positivity
    have hq := cdiv_eq_ediv hnum (le_of_lt hsw')
    have hq0 : 0 ≤ dstWidth * srcHeight / srcWidth := Int.ediv_nonneg hnum (le_of_lt hsw')
    have hqle : dstWidth * srcHeight / srcWidth ≤ dstHeight := by
      calc dstWidth * srcHeight / srcWidth ≤ dstHeight * srcWidth / srcWidth :=
            Int.ediv_le_ediv hsw' (by omega)
        _ = dstHeight := Int.mul_ediv_cancel _ (by omega)
    have hr : r = WRect.offset ⟨0, 0, dstWidth, dstWidth * srcHeight / srcWidth⟩
        (cdiv (dstWidth - dstWidth) 2) (cdiv (dstHeight - dstWidth * srcHeight / srcWidth) 2) := by
      show calculateScaledRect srcRect dstRect = _
      rw [calculateScaledRect]
      simp only [hq]
      rw [if_neg hc]
    have hdy0 : 0 ≤ dstHeight - dstWidth * srcHeight / srcWidth := by omega
    have e2 : cdiv (dstHeight - dstWidth * srcHeight / srcWidth) 2
        = (dstHeight - dstWidth * srcHeight / srcWidth) / 2 :=
      cdiv_eq_ediv hdy0 (by norm_num)
    have e1 : cdiv (dstWidth - dstWidth) 2 = 0 := by rw [sub_self]; rfl
    have e0 : cdiv (0:Int) 2 = 0 := rfl
    rw [hr, if_neg hc]
    simp only [WRect.offset, e1, e0, hq, add_zero, zero_add, sub_zero, add_sub_cancel_right,
      sub_self, e2, and_true, true_and]
    omega

/-- D3DDDIFORMAT codes used by the engine. -/
def D3DDDIFMT_UNKNOWN : Nat := 0

def D3DDDIFMT_A8R8G8B8 : Nat := 21

def D3DDDIFMT_X8R8G8B8 : Nat := 22

def D3DDDIFMT_R5G6B5 : Nat := 23

def D3DDDIFMT_P8 : Nat := 41

/-- Observable side effects of the engine: driver calls, shader-blitter
calls, CPU transfers and the rate-limited warning.  Multi-blit sequences
whose internals no claim inspects (the scaled video-memory reload of lines
1287-1318, the presentation downscale/filter/gamma passes and the
exterior clear) are single composite events. -/
inductive Event where
  | driverCreate
  | driverBlt
  | driverLock
  | driverUnlock
  | driverColorFill
  | notifyLockCall
  | copyRegion
  | cpuBlt
  | cpuColorFill
  | textureBlt
  | depthBlt
  | lockRefBlt
  | resolveDepth
  | warnMsaaResolve
  | scaledVidMemLoad
  | presentWindows
  | cursorBlt
  | palettizedBlt
  | presentFilter
  | gammaBlt
  | clearExterior
deriving DecidableEq, Repr

/-- Process-global state: the event trace, the LOG_ONCE latch of
`logUnsupportedMsaaDepthBufferResolve`, the driver-call result oracle,
Surface Repository availability, configuration settings and
`g_presentationRect`. -/
structure Glob where
  events : List Event
  warnedOnce : Bool
  calls : Nat
  oracle : Nat → Int
  tempTextureAvail : Bool
  tempRtAvail : Bool
  resolutionScaleFilterPoint : Bool
  bltFilterBilinear : Bool
  displayFilterBilinear : Bool
  gammaRampDefault : Bool
  cursorEmulated : Bool
  presentationRect : WRect
  bltSrcActive : Bool

/-- Record an event that is not a result-returning driver call. -/
def Glob.emit (g : Glob) (ev : Event) : Glob := { g with events := ev :: g.events }

/-- Issue a driver call: record the event and consume the next oracle
result. -/
def Glob.driverCall (g : Glob) (ev : Event) : Int × Glob :=
  (g.oracle g.calls, { g with events := ev :: g.events, calls := g.calls + 1 })

/-- `logUnsupportedMsaaDepthBufferResolve`: LOG_ONCE emits the warning only
on the first call in the process. -/
def Glob.logOnceMsaaResolveWarning (g : Glob) : Glob :=
  if g.warnedOnce then g else { g with warnedOnce := true, events := Event.warnMsaaResolve :: g.events }

/-- `Resource::notifyLock`: a NotifyOnly driver lock/unlock pair on the
staging resource, results ignored. -/
def Glob.notifyLockCall (g : Glob) : Glob :=
  ((g.driverCall .notifyLockCall).2.driverCall .notifyLockCall).2

/-- One lock-data entry (`m_lockData[i]`): the four per-representation
validity flags and the transient reference-locked flag. -/
structure LockData where
  isSysMemUpToDate : Bool
  isVidMemUpToDate : Bool
  isMsaaUpToDate : Bool
  isMsaaResolvedUpToDate : Bool
  isRefLocked : Bool
deriving DecidableEq, Repr

/-- A default-constructed lock-data entry (all flags clear). -/
def LockData.init : LockData := ⟨false, false, false, false, false⟩

/-- `Resource::clearUpToDateFlags`: clear the four validity flags of one
entry (the reference-locked flag is untouched). -/
def clearUpToDateFlags (e : LockData) : LockData :=
  { e with isMsaaUpToDate := false, isMsaaResolvedUpToDate := false,
           isVidMemUpToDate := false, isSysMemUpToDate := false }

/-- Number of true validity flags of an entry. -/
def LockData.validCount (e : LockData) : Nat :=
  (if e.isSysMemUpToDate then 1 else 0) + (if e.isVidMemUpToDate then 1 else 0) +
    (if e.isMsaaUpToDate then 1 else 0) + (if e.isMsaaResolvedUpToDate then 1 else 0)

/-- Invariant I1 for one entry: at least one validity flag is true. -/
def LockData.inv1 (e : LockData) : Prop :=
  e.isSysMemUpToDate = true ∨ e.isVidMemUpToDate = true ∨
    e.isMsaaUpToDate = true ∨ e.isMsaaResolvedUpToDate = true

instance (e : LockData) : Decidable e.inv1 := by unfold LockData.inv1; infer_instance

/-- Per-resource configuration, immutable during an operation (only
`updateConfig` and construction rebuild it): presence of the lock resource
and the four auxiliary surfaces, the fixed creation flags, pool, format
data and adapter capability. -/
structure Cfg where
  hasLockResource : Bool
  hasMsaaSurface : Bool
  hasMsaaResolvedSurface : Bool
  hasNullSurface : Bool
  hasLockRefSurface : Bool
  zBuffer : Bool
  renderTarget : Bool
  texture : Bool
  matchGdiPrimary : Bool
  poolSysMem : Bool
  isOversized : Bool
  msaaTypeNone : Bool
  format : Nat
  origFormat : Nat
  bytesPerPixel : Nat
  isScaled : Bool
  msaaDepthResolveSupported : Bool
  msaaResolvedIsTexture : Bool
  isSurfaceRepoResource : Bool
  isPrimary : Bool
deriving DecidableEq, Repr

/-- `Resource::shaderBlt` (flag- and result-faithful): stages a
non-texture or system-memory source through a temporary texture (for depth
blits the resolved surface doubles as the staging texture), stages the
destination through a temporary render target when this resource is not a
render target, then runs the depth or textured shader blit and copies back.
Touches no lock-data entry.  `srcTexture`/`srcPoolSysMem` describe the
actual source resource passed in (which may be another resource's
auxiliary surface). -/
def shaderBltF (c : Cfg) (srcTexture srcPoolSysMem srcColorKey : Bool) (g : Glob) :
    Int × Glob :=
  let stageSrc := srcTexture = false ∨ srcPoolSysMem = true
  let srcTexAvail := if c.zBuffer then c.hasMsaaResolvedSurface else g.tempTextureAvail
  if stageSrc ∧ srcTexAvail = false then (E_OUTOFMEMORY, g)
  else
    let (res, g) := if stageSrc then g.driverCall .copyRegion else (S_OK, g)
    if FAILED res then (res, g)
    else
      let g := if stageSrc ∧ srcPoolSysMem then g.notifyLockCall else g
      if c.renderTarget = false ∧ g.tempRtAvail = false then (E_OUTOFMEMORY, g)
      else
        let (res, g) :=
          if c.renderTarget = false ∧ srcColorKey then g.driverCall .copyRegion
          else (S_OK, g)
        if FAILED res then (res, g)
        else
          let g := if c.zBuffer then g.emit .depthBlt else g.emit .textureBlt
          let (res, g) :=
            if c.renderTarget = false then g.driverCall .copyRegion else (S_OK, g)
          if FAILED res then (res, g) else (S_OK, g)

/-- `Resource::resolveMsaaDepthBuffer`: the vendor RESZ resolve. -/
def resolveMsaaDepthBufferG (g : Glob) : Glob := g.emit .resolveDepth

mutual

/-- `Resource::loadFromLockRefResource` on one entry, fuelled. -/
def loadFromLockRefF : Nat → Cfg → LockData → Glob → LockData × Glob
  | 0, _, e, g => (e, g)
  | fuel + 1, c, e, g =>
    if e.isRefLocked then
      let e := { e with isRefLocked := false }
      let (e, g) := loadVidMemF fuel c e g
      if c.texture = false ∧ g.tempTextureAvail = false then (e, g)
      else
        let g := if c.texture = false then (g.driverCall .copyRegion).2 else g
        let g := g.emit .lockRefBlt
        ({ e with isMsaaResolvedUpToDate := true }, g)
    else (e, g)

/-- `Resource::loadVidMemResource` on one entry, fuelled.  The downscale
chain and final filtered blit of the scaled render-target reload (lines
1287-1318) are one composite event. -/
def loadVidMemF : Nat → Cfg → LockData → Glob → LockData × Glob
  | 0, _, e, g => (e, g)
  | fuel + 1, c, e, g =>
    if e.isVidMemUpToDate then (e, g)
    else
      let e := { e with isVidMemUpToDate := true }
      if e.isMsaaUpToDate ∨ e.isMsaaResolvedUpToDate then
        let (e, g) := loadMsaaResolvedF fuel c e g
        if c.renderTarget = false ∨ g.resolutionScaleFilterPoint then
          if c.zBuffer ∨ c.isScaled = false then (e, (g.driverCall .copyRegion).2)
          else (e, (shaderBltF c c.msaaResolvedIsTexture false false g).2)
        else (e, g.emit .scaledVidMemLoad)
      else
        let g := (g.driverCall .copyRegion).2
        let g := g.notifyLockCall
        ({ e with isRefLocked := false }, g)

/-- `Resource::loadMsaaResolvedResource` on one entry, fuelled. -/
def loadMsaaResolvedF : Nat → Cfg → LockData → Glob → LockData × Glob
  | 0, _, e, g => (e, g)
  | fuel + 1, c, e, g =>
    let (e, g) := loadFromLockRefF fuel c e g
    if e.isMsaaResolvedUpToDate then (e, g)
    else
      let (e, g) :=
        if e.isMsaaUpToDate then
          if c.zBuffer then
            if c.msaaDepthResolveSupported then (e, resolveMsaaDepthBufferG g)
            else (e, g.logOnceMsaaResolveWarning)
          else (e, (g.driverCall .copyRegion).2)
        else
          let (e, g) := loadVidMemF fuel c e g
          if c.zBuffer ∨ c.isScaled = false then (e, (g.driverCall .copyRegion).2)
          else (e, (shaderBltF c c.texture c.poolSysMem false g).2)
      ({ e with isMsaaResolvedUpToDate := true }, g)

/-- `Resource::loadMsaaResource` on one entry, fuelled. -/
def loadMsaaF : Nat → Cfg → LockData → Glob → LockData × Glob
  | 0, _, e, g => (e, g)
  | fuel + 1, c, e, g =>
    if e.isMsaaUpToDate then (e, g)
    else
      let (e, g) :=
        if c.hasMsaaResolvedSurface then
          let (e, g) := loadMsaaResolvedF fuel c e g
          if c.zBuffer then
            if c.hasNullSurface then (e, g.emit .depthBlt) else (e, g)
          else (e, (g.driverCall .copyRegion).2)
        else
          let (e, g) := loadVidMemF fuel c e g
          (e, (g.driverCall .copyRegion).2)
      ({ e with isMsaaUpToDate := true }, g)

/-- `Resource::loadSysMemResource` on one entry, fuelled. -/
def loadSysMemF : Nat → Cfg → LockData → Glob → LockData × Glob
  | 0, _, e, g => (e, g)
  | fuel + 1, c, e, g =>
    if e.isSysMemUpToDate then (e, g)
    else
      let (e, g) := loadVidMemF fuel c e g
      let g := (g.driverCall .copyRegion).2
      let g := g.notifyLockCall
      ({ e with isSysMemUpToDate := true }, g)

end

/-- Fuel covering the deepest possible chain of mutual load calls (the
depth is bounded by a small constant because every recursive call happens only
after a guarding flag has been set). -/
def LOAD_FUEL : Nat := 16

/-- `Resource::loadFromLockRefResource` with ample fuel. -/
def loadFromLockRefResource (c : Cfg) (e : LockData) (g : Glob) : LockData × Glob :=
  loadFromLockRefF LOAD_FUEL c e g

/-- `Resource::loadVidMemResource` with ample fuel. -/
def loadVidMemResource (c : Cfg) (e : LockData) (g : Glob) : LockData × Glob :=
  loadVidMemF LOAD_FUEL c e g

/-- `Resource::loadMsaaResolvedResource` with ample fuel. -/
def loadMsaaResolvedResource (c : Cfg) (e : LockData) (g : Glob) : LockData × Glob :=
  loadMsaaResolvedF LOAD_FUEL c e g

/-- `Resource::loadMsaaResource` with ample fuel. -/
def loadMsaaResource (c : Cfg) (e : LockData) (g : Glob) : LockData × Glob :=
  loadMsaaF LOAD_FUEL c e g

/-- `Resource::loadSysMemResource` with ample fuel. -/
def loadSysMemResource (c : Cfg) (e : LockData) (g : Glob) : LockData × Glob :=
  loadSysMemF LOAD_FUEL c e g

/-- `Resource::prepareForCpuRead` on one entry. -/
def prepareForCpuRead (c : Cfg) (e : LockData) (g : Glob) : LockData × Glob :=
  if c.hasLockResource then loadSysMemResource c e g else (e, g)

/-- `Resource::prepareForCpuWrite` on one entry: optionally snapshot the
current contents into the lock-ref surface and defer reconciliation, then
materialize system memory and mark it the only valid representation. -/
def prepareForCpuWrite (c : Cfg) (e : LockData) (g : Glob) : LockData × Glob :=
  if c.hasLockResource then
    let (e, g) :=
      if c.hasLockRefSurface ∧ (e.isMsaaResolvedUpToDate ∨ e.isMsaaUpToDate) then
        let (e, g) := loadVidMemResource c e g
        let g := (g.driverCall .copyRegion).2
        ({ e with isRefLocked := true }, g)
      else (e, g)
    let (e, g) := loadSysMemResource c e g
    ({ clearUpToDateFlags e with isSysMemUpToDate := true }, g)
  else (e, g)

/-- `Resource::prepareForGpuRead` on one entry; the Bool tells whether the
returned read source is the msaa-resolved surface rather than this
resource. -/
def prepareForGpuReadE (c : Cfg) (e : LockData) (g : Glob) : LockData × Glob × Bool :=
  if c.hasLockResource then
    let (e, g) := loadFromLockRefResource c e g
    if c.hasMsaaResolvedSurface then
      let (e, g) := loadMsaaResolvedResource c e g
      (e, g, true)
    else
      let (e, g) := loadVidMemResource c e g
      (e, g, false)
  else (e, g, false)

/-- `Resource::prepareForGpuWrite` on one entry: materialize the writable
tier (msaa, else msaa-resolved, else video memory) and mark it the only
valid representation. -/
def prepareForGpuWrite (c : Cfg) (e : LockData) (g : Glob) : LockData × Glob :=
  if c.hasLockResource ∨ c.hasMsaaResolvedSurface then
    if c.hasMsaaSurface then
      let (e, g) := loadMsaaResource c e g
      ({ clearUpToDateFlags e with isMsaaUpToDate := true }, g)
    else if c.hasMsaaResolvedSurface then
      let (e, g) := loadMsaaResolvedResource c e g
      ({ clearUpToDateFlags e with isMsaaResolvedUpToDate := true }, g)
    else
      let (e, g) := loadVidMemResource c e g
      ({ clearUpToDateFlags e with isVidMemUpToDate := true }, g)
  else (e, g)

/-- Which resource `prepareForBltDst` routes the write to. -/
inductive BltDstTarget where
  | self
  | msaa
  | msaaResolved
deriving DecidableEq, Repr

/-- `Resource::prepareForBltDst` on one entry (the unconditional
`m_isPalettizedTextureUpToDate = false` lives in the resource-level
wrapper): route the write to whichever tier is currently valid and mark it
the only valid representation. -/
def prepareForBltDstE (c : Cfg) (e : LockData) (g : Glob) : LockData × Glob × BltDstTarget :=
  if c.hasLockResource ∨ c.hasMsaaResolvedSurface then
    let (e, g) := loadFromLockRefResource c e g
    if e.isMsaaUpToDate then
      ({ clearUpToDateFlags e with isMsaaUpToDate := true }, g, .msaa)
    else if e.isMsaaResolvedUpToDate then
      ({ clearUpToDateFlags e with isMsaaResolvedUpToDate := true }, g, .msaaResolved)
    else
      let (e, g) := loadVidMemResource c e g
      ({ clearUpToDateFlags e with isVidMemUpToDate := true }, g, .self)
  else (e, g, .self)

/-- One `D3dDdi::Resource`: its configuration, the lock-data vector
(`size` entries, as a total function), the palettized-texture
synchronization flag and the fixed per-subresource surface dimensions
plus the active multisample/format/scale configuration. -/
structure Res where
  cfg : Cfg
  size : Nat
  entry : Nat → LockData
  palUTD : Bool
  surfW : Nat → Int
  surfH : Nat → Int
  msCfgCode : Nat
  fmtCfgCode : Nat
  scaledW : Int
  scaledH : Int

/-- Write one lock-data entry. -/
def Res.setEntry (r : Res) (i : Nat) (e : LockData) : Res :=
  { r with entry := fun j => if j = i then e else r.entry j }

/-- Apply an entry-level operation to entry `i`. -/
def Res.onEntry (r : Res) (i : Nat) (f : Cfg → LockData → Glob → LockData × Glob) (g : Glob) :
    Res × Glob :=
  let (e, g) := f r.cfg (r.entry i) g
  (r.setEntry i e, g)

/-- `Resource::isValidRect`. -/
def Res.isValidRect (r : Res) (i : Nat) (rect : WRect) : Bool :=
  0 ≤ rect.left && 0 ≤ rect.top && rect.left < rect.right && rect.top < rect.bottom &&
    rect.right ≤ r.surfW i && rect.bottom ≤ r.surfH i

/-- `Resource::clipRect`. -/
def Res.clipRect (r : Res) (i : Nat) (rect : WRect) : WRect :=
  ⟨max rect.left 0, max rect.top 0, min rect.right (r.surfW i), min rect.bottom (r.surfH i)⟩

/-- `Resource::scaleRect`: map a logical-coordinate rectangle to the
active physical size. -/
def Res.scaleRect (r : Res) (rect : WRect) : WRect :=
  ⟨cdiv (rect.left * r.scaledW) (r.surfW 0), cdiv (rect.top * r.scaledH) (r.surfH 0),
    cdiv (rect.right * r.scaledW) (r.surfW 0), cdiv (rect.bottom * r.scaledH) (r.surfH 0)⟩

/-- `Resource::prepareForBltSrc`. -/
def Res.prepareForBltSrc (r : Res) (g : Glob) (i : Nat) : Res × Glob :=
  if r.cfg.hasLockResource ∨ r.cfg.hasMsaaResolvedSurface then
    r.onEntry i loadVidMemResource g
  else (r, g)

/-- `Resource::prepareForBltDst` at the resource level: invalidates the
palettized-texture link, routes the write and scales the destination
rectangle when it lands on an auxiliary surface. -/
def Res.prepareForBltDst (r : Res) (g : Glob) (i : Nat) (rect : WRect) :
    Res × Glob × BltDstTarget × WRect :=
  let r := { r with palUTD := false }
  let (e, g, tgt) := prepareForBltDstE r.cfg (r.entry i) g
  let r := r.setEntry i e
  match tgt with
  | .self => (r, g, tgt, rect)
  | _ => (r, g, tgt, r.scaleRect rect)

/-- `Resource::bltLock`: serve a lock from the system-memory mirror,
preparing it for CPU read or write first when the staging lock resource
exists. -/
def Res.bltLock (r : Res) (g : Glob) (i : Nat) (readOnly : Bool) : Res × Glob × Int :=
  if r.cfg.hasLockResource then
    if readOnly then
      let (r, g) := r.onEntry i prepareForCpuRead g
      (r, g, S_OK)
    else
      let (r, g) := r.onEntry i prepareForCpuWrite g
      (r, g, S_OK)
  else (r, g, S_OK)

/-- `Resource::lock`: fail multisampled resources, abort re-entrant blits,
serve oversized or mirrored resources through `bltLock`, otherwise flush a
depth buffer's msaa state and fall through to the driver lock. -/
def Res.lock (r : Res) (g : Glob) (i : Nat) (readOnly : Bool) : Res × Glob × Int :=
  if r.cfg.msaaTypeNone = false then (r, g, E_FAIL)
  else if g.bltSrcActive then (r, g, E_ABORT)
  else if r.cfg.hasLockResource ∨ r.cfg.isOversized then r.bltLock g i readOnly
  else
    let r := if readOnly = false then { r with palUTD := false } else r
    let (r, g) :=
      if r.cfg.zBuffer ∧ r.cfg.hasMsaaResolvedSurface then
        let (r, g) := r.onEntry 0 loadVidMemResource g
        if readOnly = false then
          let e0 := r.entry 0
          (r.setEntry 0 { e0 with isMsaaUpToDate := false, isMsaaResolvedUpToDate := false }, g)
        else (r, g)
      else (r, g)
    let (res, g) := g.driverCall .driverLock
    (r, g, res)

/-- `Resource::unlock`. -/
def Res.unlock (r : Res) (g : Glob) : Res × Glob × Int :=
  if r.cfg.hasLockResource ∨ r.cfg.isOversized then (r, g, S_OK)
  else
    let (res, g) := g.driverCall .driverUnlock
    (r, g, res)

/-- `Resource::colorFill`: clip, serve from the system-memory mirror when
it is the only valid copy, else prepare the blt destination and issue the
driver color fill. -/
def Res.colorFill (r : Res) (g : Glob) (i : Nat) (rect : WRect) : Res × Glob × Int :=
  let rect := r.clipRect i rect
  if rect.right ≤ rect.left ∨ rect.bottom ≤ rect.top then (r, g, S_OK)
  else if r.cfg.hasLockResource ∧ (r.entry i).isSysMemUpToDate ∧
      (r.entry i).isVidMemUpToDate = false then
    (r, g.emit .cpuColorFill, S_OK)
  else
    let (r, g, _, _) := r.prepareForBltDst g i rect
    let (res, g) := g.driverCall .driverColorFill
    (r, g, res)

/-- Transfer flags of a D3DDDIARG_BLT. -/
structure BltFlags where
  mirrorLeftRight : Bool
  mirrorUpDown : Bool
  srcColorKey : Bool
  dstColorKey : Bool
  linear : Bool
  point : Bool
deriving DecidableEq, Repr

/-- `Resource::bltViaCpu`: the CPU scanline-copy path.  It declines with
S_FALSE unless the two fixed formats are equal with known bytes-per-pixel
and either the destination format is P8 or at least one side has the
oversized flag; otherwise it locks both sides, runs the CPU blit and
unlocks. -/
def Res.bltViaCpu (dst src : Res) (g : Glob) (dstIdx srcIdx : Nat) :
    Res × Res × Glob × Int :=
  if dst.cfg.format ≠ src.cfg.format ∨ dst.cfg.bytesPerPixel = 0 ∨
      (dst.cfg.format ≠ D3DDDIFMT_P8 ∧ dst.cfg.isOversized = false ∧
        src.cfg.isOversized = false) then
    (dst, src, g, S_FALSE)
  else
    let (src, g, srcRes) := src.lock g srcIdx (src.cfg.poolSysMem = false)
    if FAILED srcRes then (dst, src, g, srcRes)
    else
      let (dst, g, dstRes) := dst.lock g dstIdx false
      let (dst, g) :=
        if FAILED dstRes = false then
          let g := g.emit .cpuBlt
          let (dst, g, _) := dst.unlock g
          (dst, g)
        else (dst, g)
      let (src, g, _) := src.unlock g
      (dst, src, g, dstRes)

/-- The driver tail of `Resource::bltViaGpu`: optional staging copy for a
system-memory redirected source, the native blit, and the NotifyOnly
notifications for system-memory pools. -/
def Res.bltViaGpuDriverTail (dst src : Res) (g : Glob) (tgt : BltDstTarget) (srcSys : Bool) :
    Res × Res × Glob × Int :=
  let g := if tgt ≠ BltDstTarget.self ∧ srcSys then (g.driverCall .copyRegion).2 else g
  let (res, g) := g.driverCall .driverBlt
  let g :=
    if dst.cfg.poolSysMem then g.notifyLockCall
    else if src.cfg.poolSysMem then g.notifyLockCall
    else g
  (dst, src, g, res)

/-- The shared tail of `Resource::bltViaGpu` after the source has been
selected (`srcIsResolved` tells whether the redirected source is the
source resource's msaa-resolved surface): prepare the destination, pick a
filter, try the shader path when its conditions hold, else fall back to
the native driver blit. -/
def Res.bltViaGpuTail (dst src : Res) (g : Glob) (dstIdx : Nat) (dstRect srcRect : WRect)
    (fl : BltFlags) (srcIsResolved : Bool) : Res × Res × Glob × Int :=
  let (dst, g, tgt, dstRect) := dst.prepareForBltDst g dstIdx dstRect
  let fl :=
    if dst.cfg.zBuffer = false then
      if dst.cfg.poolSysMem = false ∧ src.cfg.poolSysMem = false ∧ g.bltFilterBilinear then
        { fl with linear := true }
      else { fl with point := true }
    else fl
  let srcTex := if srcIsResolved then src.cfg.msaaResolvedIsTexture else src.cfg.texture
  let srcSys := if srcIsResolved then false else src.cfg.poolSysMem
  if dst.cfg.poolSysMem = false ∧
      ((dst.cfg.zBuffer ∧ tgt = BltDstTarget.msaa ∧ dst.cfg.hasNullSurface) ∨
        dst.cfg.renderTarget = true ∨
        (dst.cfg.zBuffer = false ∧ (fl.srcColorKey ∨ fl.mirrorLeftRight ∨ fl.mirrorUpDown ∨
          dstRect.right - dstRect.left ≠ srcRect.right - srcRect.left ∨
          dstRect.bottom - dstRect.top ≠ srcRect.bottom - srcRect.top))) then
    let (sbRes, g) := shaderBltF dst.cfg srcTex srcSys fl.srcColorKey g
    if FAILED sbRes = false then (dst, src, g, S_OK)
    else Res.bltViaGpuDriverTail dst src g tgt srcSys
  else Res.bltViaGpuDriverTail dst src g tgt srcSys

/-- `Resource::bltViaGpu`: reconcile a deferred reference-locked write on
the source, route through the msaa-resolved surfaces when both sides have
them and the source's msaa state is live, else prepare the source in video
memory; then run the shared tail. -/
def Res.bltViaGpu (dst src : Res) (g : Glob) (dstIdx srcIdx : Nat)
    (dstRect srcRect : WRect) (fl : BltFlags) : Res × Res × Glob × Int :=
  let (src, g) :=
    if src.cfg.hasLockResource then src.onEntry srcIdx loadFromLockRefResource g
    else (src, g)
  if dst.cfg.hasMsaaResolvedSurface ∧ src.cfg.hasMsaaResolvedSurface ∧
      ((src.entry srcIdx).isMsaaResolvedUpToDate ∨ (src.entry srcIdx).isMsaaUpToDate) then
    let (src, g) := src.onEntry srcIdx loadMsaaResolvedResource g
    let srcRect := src.scaleRect srcRect
    let (dst, g) :=
      if (dst.entry dstIdx).isMsaaUpToDate = false then
        dst.onEntry dstIdx loadMsaaResolvedResource g
      else (dst, g)
    Res.bltViaGpuTail dst src g dstIdx dstRect srcRect fl true
  else
    let (src, g) := src.prepareForBltSrc g srcIdx
    Res.bltViaGpuTail dst src g dstIdx dstRect srcRect fl false

/-- The source demotion step of `Resource::presentationBlt`: a
CPU-written non-render-target source is marked valid in system memory
only. -/
def presentSrcDemote (src : Res) (srcIdx : Nat) : Res :=
  if (src.entry srcIdx).isSysMemUpToDate ∧ src.cfg.renderTarget = false then
    src.setEntry srcIdx
      { src.entry srcIdx with isVidMemUpToDate := false, isMsaaResolvedUpToDate := false }
  else src

/-- `Resource::presentationBlt` (flag- and result-faithful; the
multi-pass compositing is recorded as composite events): demote a
CPU-written non-render-target source to system memory only, prepare it
for GPU read, stage a system-memory source through a temp texture
(E_OUTOFMEMORY if unavailable), composite, and finish through the
downscale/filter/gamma/exterior-clear passes when a temp render target
exists. -/
def Res.presentationBlt (dst src : Res) (g : Glob) (dstIdx srcIdx : Nat) :
    Res × Res × Glob × Int :=
  let (src, g) :=
    if src.cfg.hasLockResource then
      ((presentSrcDemote src srcIdx).setEntry srcIdx
          (prepareForGpuReadE (presentSrcDemote src srcIdx).cfg
            ((presentSrcDemote src srcIdx).entry srcIdx) g).1,
        (prepareForGpuReadE (presentSrcDemote src srcIdx).cfg
          ((presentSrcDemote src srcIdx).entry srcIdx) g).2.1)
    else (src, g)
  if src.cfg.poolSysMem ∧ g.tempTextureAvail = false then (dst, src, g, E_OUTOFMEMORY)
  else
    let g := if src.cfg.poolSysMem then (g.driverCall .copyRegion).2 else g
    let g :=
      if src.cfg.origFormat = D3DDDIFMT_P8 then g.emit .palettizedBlt
      else (g.driverCall .copyRegion).2
    let g := if g.presentationRect.isEmpty = false then g.emit .presentWindows else g
    let g := if g.cursorEmulated then g.emit .cursorBlt else g
    if g.tempRtAvail = false then (dst, src, g, S_OK)
    else
      let g := g.emit .presentFilter
      let g := if g.gammaRampDefault = false ∧ g.tempRtAvail then g.emit .gammaBlt else g
      let g := g.emit .clearExterior
      (dst, src, g, S_OK)

/-- `Resource::blt`: the router.  Skip depth blits whose msaa state cannot
be resolved (with the rate-limited warning), validate rectangles, pass
system-memory-to-system-memory transfers to the native blit, route
presentation blits, then try the CPU path and fall back to the GPU path;
blits without a tracked source go straight to the prepared driver blit. -/
def Res.blt (dst : Res) (srcOpt : Option Res) (g : Glob) (dstIdx srcIdx : Nat)
    (dstRect srcRect : WRect) (fl : BltFlags) : Res × Option Res × Glob × Int :=
  if dst.cfg.zBuffer ∧ dst.cfg.hasMsaaSurface ∧ dst.cfg.msaaDepthResolveSupported = false then
    (dst, srcOpt, g.logOnceMsaaResolveWarning, S_OK)
  else if dst.isValidRect dstIdx dstRect = false then (dst, srcOpt, g, S_OK)
  else
    match srcOpt with
    | some src =>
      if src.isValidRect srcIdx srcRect = false then (dst, some src, g, S_OK)
      else if dst.cfg.poolSysMem ∧ src.cfg.poolSysMem then
        let (res, g) := g.driverCall .driverBlt
        (dst, some src, g, res)
      else if dst.cfg.matchGdiPrimary then
        let (dst, src, g, res) := Res.presentationBlt dst src g dstIdx srcIdx
        (dst, some src, g, res)
      else
        let (dst, src, g, res) := Res.bltViaCpu dst src g dstIdx srcIdx
        if res ≠ S_FALSE then (dst, some src, g, res)
        else
          let (dst, src, g, res) := Res.bltViaGpu dst src g dstIdx srcIdx dstRect srcRect fl
          (dst, some src, g, res)
    | none =>
      let (dst, g, _, _) := dst.prepareForBltDst g dstIdx dstRect
      let (res, g) := g.driverCall .driverBlt
      (dst, none, g, res)

/-- Adapter/config-derived inputs consumed by `Resource::updateConfig`:
the freshly computed multisample/format/scale configuration
(`getMultisampleConfig`/`getFormatConfig`/`getScaledSize`, encoded as
comparable codes) and the Surface Repository's answers to the auxiliary
surface requests. -/
structure UCParams where
  newMsCode : Nat
  newMsNone : Bool
  newFmtCode : Nat
  newScaledW : Int
  newScaledH : Int
  msaaSurfaceAvail : Bool
  nullSurfaceAvail : Bool
  msaaResolvedAvail : Bool
  msaaResolvedRetryAvail : Bool
  lockRefAvail : Bool
deriving DecidableEq, Repr

/-- The per-entry body of `Resource::updateConfig`'s reconfiguration loop:
pull any representation held only in the msaa/resolved surfaces into video
memory first, then clear their flags and the reference lock. -/
def updateConfigEntry (c : Cfg) (e : LockData) (g : Glob) : LockData × Glob :=
  let (e, g) :=
    if e.isMsaaUpToDate ∨ e.isMsaaResolvedUpToDate then loadVidMemResource c e g else (e, g)
  ({ e with isMsaaUpToDate := false, isMsaaResolvedUpToDate := false, isRefLocked := false }, g)

/-- The reconfiguration loop over entries `0..n-1`, in order. -/
def Res.updateConfigLoop : Res → Glob → Nat → Res × Glob
  | r, g, 0 => (r, g)
  | r, g, n + 1 =>
    let (r, g) := Res.updateConfigLoop r g n
    r.onEntry n updateConfigEntry g

/-- `Resource::updateConfig`: skip resources that never reconfigure, skip
when the active configuration is unchanged, else flush msaa-held
representations to video memory, release the auxiliary surfaces and
re-lease them from the Surface Repository according to the new
configuration (with the msaa-surface-releasing retry when the resolved
surface could not be obtained).  The construction-time global override
dance and the dry-run downscale probe change no modelled state. -/
def Res.updateConfig (r : Res) (g : Glob) (p : UCParams) : Res × Glob :=
  if r.cfg.isSurfaceRepoResource ∨ r.cfg.poolSysMem ∨ r.cfg.format = D3DDDIFMT_P8 ∨
      r.cfg.matchGdiPrimary ∨
      (r.cfg.isPrimary = false ∧ r.cfg.renderTarget = false ∧ r.cfg.zBuffer = false) ∨
      (r.cfg.zBuffer = false ∧ r.cfg.hasLockResource = false) then (r, g)
  else if r.msCfgCode = p.newMsCode ∧ r.fmtCfgCode = p.newFmtCode ∧
      r.scaledW = p.newScaledW ∧ r.scaledH = p.newScaledH then (r, g)
  else
    let r := { r with msCfgCode := p.newMsCode, fmtCfgCode := p.newFmtCode,
                      scaledW := p.newScaledW, scaledH := p.newScaledH }
    let (r, g) :=
      if r.cfg.hasMsaaSurface ∨ r.cfg.hasMsaaResolvedSurface then r.updateConfigLoop g r.size
      else (r, g)
    let cfgReleased := { r.cfg with
      hasMsaaSurface := false
      hasMsaaResolvedSurface := false
      hasNullSurface := false
      hasLockRefSurface := false }
    let r := { r with cfg := cfgReleased }
    let isScaled := decide (r.surfW 0 ≠ p.newScaledW ∨ r.surfH 0 ≠ p.newScaledH)
    let r := { r with cfg := { r.cfg with isScaled := isScaled } }
    if p.newMsNone = false ∨ r.cfg.format ≠ p.newFmtCode ∨ isScaled = true then
      let hasMsaa := !p.newMsNone && p.msaaSurfaceAvail
      let hasNull := r.cfg.zBuffer && hasMsaa && r.cfg.msaaDepthResolveSupported &&
        p.nullSurfaceAvail
      let hasResolved := p.msaaResolvedAvail
      let pair := if !hasResolved && hasMsaa then (false, p.msaaResolvedRetryAvail)
                  else (hasMsaa, hasResolved)
      let hasLockRef := !r.cfg.zBuffer && pair.2 && p.lockRefAvail
      let resolvedIsTexture := !r.cfg.zBuffer && isScaled
      let cfgNew := { r.cfg with
        hasMsaaSurface := pair.1
        hasNullSurface := hasNull
        hasMsaaResolvedSurface := pair.2
        hasLockRefSurface := hasLockRef
        msaaResolvedIsTexture := resolvedIsTexture }
      ({ r with cfg := cfgNew }, g)
    else (r, g)

/-- The creation request (`D3DDDIARG_CREATERESOURCE2`): flags, pool,
subresource list dimensions, format and multisample type.
`otherTypeFlags` covers the remaining flags of `g_resourceTypeFlags`
(Primary, CubeMap, IndexBuffer, Video, ...) that only feed the
`createLockResource` mask. -/
structure CreateParams where
  vertexBuffer : Bool
  mightDrawFromLocked : Bool
  matchGdiPrimary : Bool
  zBuffer : Bool
  renderTarget : Bool
  texture : Bool
  otherTypeFlags : Bool
  poolSysMem : Bool
  surfCount : Nat
  surfW : Nat → Nat
  surfH : Nat → Nat
  depth0 : Nat
  format : Nat
  msTypeNone : Bool

/-- Process environment at construction time: monitor rectangles, device
caps, the global format/multisample overrides, the Surface Repository
nesting flag, the format info table and the adapter inputs of
`updateConfig`. -/
structure CreateEnv where
  primaryMonitorRect : WRect
  realMonitorRect : WRect
  maxTextureWidth : Nat
  maxTextureHeight : Nat
  formatOverride : Nat
  msaaOverrideNone : Bool
  inCreateSurface : Bool
  msaaDepthResolveSupported : Bool
  bppOf : Nat → Nat
  uc : UCParams

/-- `Resource::setFullscreenMode` (presentation-rectangle part; the
cursor/palette side effects touch no modelled state). -/
def setFullscreenModeG (g : Glob) (isFullscreen : Bool) (primaryRect realRect : WRect) : Glob :=
  if (g.presentationRect.isEmpty = false) = (isFullscreen = true) then g
  else if isFullscreen then
    { g with presentationRect := calculateScaledRect primaryRect realRect }
  else { g with presentationRect := ⟨0, 0, 0, 0⟩ }

/-- `Resource::fixResourceData`: force the desktop-mirroring primary's
size and format, apply the global format/multisample overrides, and clamp
single-subresource depthless system-memory resources of known
bytes-per-pixel to the device's maximum texture size, reporting the
oversized flag. -/
def fixResourceData (p : CreateParams) (env : CreateEnv) : CreateParams × Bool :=
  let p :=
    if p.matchGdiPrimary then
      let p :=
        if env.realMonitorRect.isEmpty = false then
          { p with
            surfW := fun _ => (env.realMonitorRect.right - env.realMonitorRect.left).toNat,
            surfH := fun _ => (env.realMonitorRect.bottom - env.realMonitorRect.top).toNat }
        else p
      { p with format := D3DDDIFMT_X8R8G8B8 }
    else p
  let p :=
    if env.formatOverride ≠ D3DDDIFMT_UNKNOWN then
      { p with format := env.formatOverride, texture := if p.zBuffer then true else p.texture }
    else p
  let p := if env.msaaOverrideNone = false then { p with msTypeNone := false } else p
  if p.poolSysMem ∧ p.surfCount = 1 ∧ p.depth0 = 0 ∧ env.bppOf p.format ≠ 0 then
    let wc := if env.maxTextureWidth < p.surfW 0 then (env.maxTextureWidth, true)
              else (p.surfW 0, false)
    let hc := if env.maxTextureHeight < p.surfH 0 then (env.maxTextureHeight, true)
              else (p.surfH 0, false)
    ({ p with surfW := fun j => if j = 0 then wc.1 else p.surfW j,
              surfH := fun j => if j = 0 then hc.1 else p.surfH j }, wc.2 || hc.2)
  else (p, false)

/-- The lock-data entry of a freshly bootstrapped video-memory depth
buffer or staging-backed resource: all existing tiers valid. -/
def bootEntry (c : Cfg) : LockData :=
  { isSysMemUpToDate := true, isVidMemUpToDate := true,
    isMsaaUpToDate := c.hasMsaaSurface, isMsaaResolvedUpToDate := c.hasMsaaResolvedSurface,
    isRefLocked := false }

/-- `Resource::Resource`: the constructor.  Raise E_FAIL on the
unsupported vertex-buffer flag combination before creating anything, enter
fullscreen mode for the desktop-mirroring primary, fix the creation data,
create the driver resource (propagating a failing result as an error, so
no resource is observable), run the initial `updateConfig`, and set up the
lock data by pool/usage: video-memory depth buffers bootstrap all tiers
valid, plain system-memory resources wrap the caller memory with only
system memory valid, and the rest get a staging lock resource (dropped
silently if its driver creation fails). -/
def mkResource (p : CreateParams) (g : Glob) (env : CreateEnv) : Glob × Except Int Res :=
  if p.vertexBuffer ∧ p.mightDrawFromLocked ∧ p.poolSysMem = false then (g, .error E_FAIL)
  else
    let g :=
      if p.matchGdiPrimary then
        setFullscreenModeG g true env.primaryMonitorRect env.realMonitorRect
      else g
    let fx := fixResourceData p env
    let p2 := fx.1
    let cfg0 : Cfg := {
      hasLockResource := false, hasMsaaSurface := false, hasMsaaResolvedSurface := false,
      hasNullSurface := false, hasLockRefSurface := false,
      zBuffer := p2.zBuffer, renderTarget := p2.renderTarget, texture := p2.texture,
      matchGdiPrimary := p2.matchGdiPrimary, poolSysMem := p2.poolSysMem,
      isOversized := fx.2, msaaTypeNone := p2.msTypeNone,
      format := p2.format, origFormat := p.format, bytesPerPixel := env.bppOf p2.format,
      isScaled := false, msaaDepthResolveSupported := env.msaaDepthResolveSupported,
      msaaResolvedIsTexture := false, isSurfaceRepoResource := env.inCreateSurface,
      isPrimary := false }
    let (createRes, g) := g.driverCall .driverCreate
    if FAILED createRes then (g, .error createRes)
    else
      let r : Res := {
        cfg := cfg0
        size := 0
        entry := fun _ => LockData.init
        palUTD := false
        surfW := fun i => (p2.surfW i : Int)
        surfH := fun i => (p2.surfH i : Int)
        msCfgCode := 0
        fmtCfgCode := p2.format
        scaledW := (p2.surfW 0 : Int)
        scaledH := (p2.surfH 0 : Int) }
      let (r, g) := r.updateConfig g env.uc
      if p2.poolSysMem = false ∧ p.zBuffer then
        (g, .ok { r with size := p.surfCount, entry := fun _ => bootEntry r.cfg })
      else if p2.poolSysMem ∧ env.bppOf p2.format ≠ 0 then
        let e0 := { LockData.init with isSysMemUpToDate := true }
        (g, .ok { r with size := p.surfCount, entry := fun _ => e0 })
      else if p2.poolSysMem ∨ env.inCreateSurface ∨ env.bppOf p2.format = 0 ∨
          (p2.zBuffer ∨ p2.matchGdiPrimary ∨ p2.texture ∨ p2.vertexBuffer ∨
            p2.otherTypeFlags) then
        (g, .ok r)
      else
        let (res2, g) := g.driverCall .driverCreate
        if FAILED res2 then (g, .ok r)
        else
          let cfg := { r.cfg with hasLockResource := true }
          (g, .ok { r with cfg := cfg, size := p2.surfCount, entry := fun _ => bootEntry cfg })

/-- `Resource::downscale` from the source: repeated half-size (or better)
blits through alternating temporary render targets until the remaining
source is within a 2x ratio of the destination.  `avail` models whether the
Surface Repository can supply the next temporary render target (the
`!nextRt.resource` early return).  The result carries the final source
dimensions, the number of `textureBlt` calls issued (zero on a dry run),
and whether the loop reached one of its exits (`false` only when the fuel
ran out, which the termination theorem rules out). -/
def downscaleF : Nat → Bool → Bool → Int → Int → Int → Int → (Int × Int) × Nat × Bool
  | 0, _, _, srcWidth, srcHeight, _, _ => ((srcWidth, srcHeight), 0, false)
  | fuel + 1, avail, dryRun, srcWidth, srcHeight, dstWidth, dstHeight =>
    if srcWidth > 2 * dstWidth ∨ srcHeight > 2 * dstHeight then
      let newSrcWidth := max dstWidth (cdiv (srcWidth + 1) 2)
      let newSrcHeight := max dstHeight (cdiv (srcHeight + 1) 2)
      if avail = false then ((srcWidth, srcHeight), 0, true)
      else
        let r := downscaleF fuel avail dryRun newSrcWidth newSrcHeight dstWidth dstHeight
        (r.1, (if dryRun then 0 else 1) + r.2.1, r.2.2)
    else ((srcWidth, srcHeight), 0, true)

/-- Termination measure for the downscale loop: the dimensions still
violating the 2x ratio. -/
def downscaleMu (srcWidth srcHeight dstWidth dstHeight : Int) : Nat :=
  (if srcWidth > 2 * dstWidth then srcWidth.toNat else 0) +
    (if srcHeight > 2 * dstHeight then srcHeight.toNat else 0)

theorem downscaleMu_decrease (srcWidth srcHeight dstWidth dstHeight : Int)
    (h0w : 0 ≤ srcWidth) (h0h : 0 ≤ srcHeight) (h1w : 1 ≤ dstWidth) (h1h : 1 ≤ dstHeight)
    (hg : srcWidth > 2 * dstWidth ∨ srcHeight > 2 * dstHeight) :
    downscaleMu (max dstWidth (cdiv (srcWidth + 1) 2)) (max dstHeight (cdiv (srcHeight + 1) 2))
      dstWidth dstHeight < downscaleMu srcWidth srcHeight dstWidth dstHeight := by
  have ew : cdiv (srcWidth + 1) 2 = (srcWidth + 1) / 2 := cdiv_eq_ediv (by omega) (by norm_num)
  have eh : cdiv (srcHeight + 1) 2 = (srcHeight + 1) / 2 := cdiv_eq_ediv (by omega) (by norm_num)
  rw [downscaleMu, downscaleMu, ew, eh]
  split_ifs <;> omega

theorem downscaleF_complete (avail dryRun : Bool) (dstWidth dstHeight : Int)
    (h1w : 1 ≤ dstWidth) (h1h : 1 ≤ dstHeight) :
    ∀ fuel srcWidth srcHeight, 0 ≤ srcWidth → 0 ≤ srcHeight →
      downscaleMu srcWidth srcHeight dstWidth dstHeight < fuel →
      (downscaleF fuel avail dryRun srcWidth srcHeight dstWidth dstHeight).2.2 = true ∧
      (avail = true →
        (downscaleF fuel avail dryRun srcWidth srcHeight dstWidth dstHeight).1.1 ≤ 2 * dstWidth ∧
        (downscaleF fuel avail dryRun srcWidth srcHeight dstWidth dstHeight).1.2 ≤ 2 * dstHeight) := by
  intro fuel
  induction fuel with
  | zero => intro srcWidth srcHeight _ _ hmu; omega
  | succ n ih =>
    intro srcWidth srcHeight h0w h0h hmu
    rw [downscaleF]
    by_cases hg : srcWidth > 2 * dstWidth ∨ srcHeight > 2 * dstHeight
    · rw [if_pos hg]
      by_cases hav : avail = false
      · rw [if_pos hav]
        exact ⟨rfl, fun h => by rw [h] at hav; exact absurd hav (by simp)⟩
      · rw [if_neg hav]
        have hdec := downscaleMu_decrease srcWidth srcHeight dstWidth dstHeight h0w h0h h1w h1h hg
        have h0w' : 0 ≤ max dstWidth (cdiv (srcWidth + 1) 2) := le_max_of_le_left (by omega)
        have h0h' : 0 ≤ max dstHeight (cdiv (srcHeight + 1) 2) := le_max_of_le_left (by omega)
        have := ih (max dstWidth (cdiv (srcWidth + 1) 2)) (max dstHeight (cdiv (srcHeight + 1) 2))
          h0w' h0h' (by omega)
        exact ⟨this.1, fun h => this.2 h⟩
    · rw [if_neg hg]
      refine ⟨rfl, fun _ => ⟨?_, ?_⟩⟩ <;> simp <;> omega

/-- C8: the downscale chain terminates for every source size and every
positive destination size (with fuel `srcWidth.toNat + srcHeight.toNat + 1`
the loop always reaches one of its exits); if every intermediate
render-target request succeeds, the remaining source dimensions on return
are within a 2x ratio of the destination in both dimensions; and no step
runs at all when the source is already within a 2x ratio. -/
theorem c8_downscale_terminates_within_ratio
    (avail dryRun : Bool) (srcWidth srcHeight dstWidth dstHeight : Int)
    (h0w : 0 ≤ srcWidth) (h0h : 0 ≤ srcHeight) (h1w : 1 ≤ dstWidth) (h1h : 1 ≤ dstHeight) :
    (downscaleF (srcWidth.toNat + srcHeight.toNat + 1) avail dryRun
      srcWidth srcHeight dstWidth dstHeight).2.2 = true ∧
    (avail = true →
      (downscaleF (srcWidth.toNat + srcHeight.toNat + 1) avail dryRun
        srcWidth srcHeight dstWidth dstHeight).1.1 ≤ 2 * dstWidth ∧
      (downscaleF (srcWidth.toNat + srcHeight.toNat + 1) avail dryRun
        srcWidth srcHeight dstWidth dstHeight).1.2 ≤ 2 * dstHeight) ∧
    (srcWidth ≤ 2 * dstWidth → srcHeight ≤ 2 * dstHeight →
      downscaleF (srcWidth.toNat + srcHeight.toNat + 1) avail dryRun
        srcWidth srcHeight dstWidth dstHeight = ((srcWidth, srcHeight), 0, true)) := by
  have hmu : downscaleMu srcWidth srcHeight dstWidth dstHeight <
      srcWidth.toNat + srcHeight.toNat + 1 := by
    rw [downscaleMu]
    split_ifs <;> omega
  have h := downscaleF_complete avail dryRun dstWidth dstHeight h1w h1h
    (srcWidth.toNat + srcHeight.toNat + 1) srcWidth srcHeight h0w h0h hmu
  refine ⟨h.1, h.2, fun hw hh => ?_⟩
  rw [downscaleF, if_neg (by omega)]

/-- C8 witness: a 1000x600 source shrinks to within a 2x ratio of a 100x100
destination when all render-target requests succeed. -/
theorem c8_witness :
    (downscaleF (1000 + 600 + 1) true false 1000 600 100 100).1.1 ≤ 2 * 100 ∧
    (downscaleF (1000 + 600 + 1) true false 1000 600 100 100).2.2 = true :=
  have h := c8_downscale_terminates_within_ratio true false 1000 600 100 100
    (by norm_num) (by norm_num) (by norm_num) (by norm_num)
  ⟨(h.2.1 rfl).1, h.1⟩

/-- The four validity flags of `a` are dominated by those of `b` (the
reference-locked flag is not ordered). -/
def flagsLe (a b : LockData) : Prop :=
  (a.isSysMemUpToDate = true → b.isSysMemUpToDate = true) ∧
    (a.isVidMemUpToDate = true → b.isVidMemUpToDate = true) ∧
    (a.isMsaaUpToDate = true → b.isMsaaUpToDate = true) ∧
    (a.isMsaaResolvedUpToDate = true → b.isMsaaResolvedUpToDate = true)

theorem flagsLe_refl (e : LockData) : flagsLe e e :=
  ⟨id, id, id, id⟩

theorem flagsLe_trans {a b c : LockData} (h1 : flagsLe a b) (h2 : flagsLe b c) :
    flagsLe a c :=
  ⟨fun h => h2.1 (h1.1 h), fun h => h2.2.1 (h1.2.1 h), fun h => h2.2.2.1 (h1.2.2.1 h),
    fun h => h2.2.2.2 (h1.2.2.2 h)⟩

theorem flagsLe_setRefLocked (e : LockData) (b : Bool) : flagsLe e { e with isRefLocked := b } := by
  refine ⟨?_, ?_, ?_, ?_⟩ <;> intro h <;> simpa using h

theorem flagsLe_setSys (e : LockData) : flagsLe e { e with isSysMemUpToDate := true } := by
  refine ⟨?_, ?_, ?_, ?_⟩ <;> intro h <;> simpa using h

theorem flagsLe_setVid (e : LockData) : flagsLe e { e with isVidMemUpToDate := true } := by
  refine ⟨?_, ?_, ?_, ?_⟩ <;> intro h <;> simpa using h

theorem flagsLe_setMsaa (e : LockData) : flagsLe e { e with isMsaaUpToDate := true } := by
  refine ⟨?_, ?_, ?_, ?_⟩ <;> intro h <;> simpa using h

theorem flagsLe_setRes (e : LockData) : flagsLe e { e with isMsaaResolvedUpToDate := true } := by
  refine ⟨?_, ?_, ?_, ?_⟩ <;> intro h <;> simpa using h

/-- Monotonicity of the materialization engine: the five load operations
only ever set validity flags, never clear them (for any fuel). -/
theorem loadsMonoAll : ∀ fuel : Nat,
    (∀ c e g, flagsLe e (loadFromLockRefF fuel c e g).1) ∧
    (∀ c e g, flagsLe e (loadVidMemF fuel c e g).1) ∧
    (∀ c e g, flagsLe e (loadMsaaResolvedF fuel c e g).1) ∧
    (∀ c e g, flagsLe e (loadMsaaF fuel c e g).1) ∧
    (∀ c e g, flagsLe e (loadSysMemF fuel c e g).1) := by
  intro fuel
  induction fuel with
  | zero => refine ⟨?_, ?_, ?_, ?_, ?_⟩ <;> intro c e g <;> exact flagsLe_refl e
  | succ n ih =>
    obtain ⟨ihRef, ihVid, ihRes, ihMsaa, ihSys⟩ := ih
    refine ⟨?_, ?_, ?_, ?_, ?_⟩
    · intro c e g
      rw [loadFromLockRefF]
      split
      · rcases hv : loadVidMemF n c { e with isRefLocked := false } g with ⟨e2, g2⟩
        have h1 := ihVid c { e with isRefLocked := false } g
        rw [hv] at h1
        have h0 := flagsLe_setRefLocked e false
        simp only [hv]
        split_ifs <;>
          first
            | exact flagsLe_trans h0 h1
            | exact flagsLe_trans h0 (flagsLe_trans h1 (flagsLe_setRes e2))
      · exact flagsLe_refl e
    · intro c e g
      rw [loadVidMemF]
      split
      · exact flagsLe_refl e
      · rcases hr : loadMsaaResolvedF n c { e with isVidMemUpToDate := true } g with ⟨e2, g2⟩
        have h1 := ihRes c { e with isVidMemUpToDate := true } g
        rw [hr] at h1
        have h0 := flagsLe_setVid e
        simp only [hr]
        split_ifs <;>
          first
            | exact flagsLe_trans h0 h1
            | (refine ⟨?_, ?_, ?_, ?_⟩ <;> intro hx <;> simpa using hx)
    · intro c e g
      rw [loadMsaaResolvedF]
      rcases hl : loadFromLockRefF n c e g with ⟨e1, g1⟩
      have h1 := ihRef c e g
      rw [hl] at h1
      simp only [hl]
      split
      · exact h1
      · rcases hv : loadVidMemF n c e1 g1 with ⟨e2, g2⟩
        have h2 := ihVid c e1 g1
        rw [hv] at h2
        simp only [hv]
        split_ifs <;>
          first
            | exact flagsLe_trans h1 (flagsLe_setRes e1)
            | exact flagsLe_trans h1 (flagsLe_trans h2 (flagsLe_setRes e2))
    · intro c e g
      rw [loadMsaaF]
      split
      · exact flagsLe_refl e
      · rcases hr : loadMsaaResolvedF n c e g with ⟨e2, g2⟩
        have h1 := ihRes c e g
        rw [hr] at h1
        rcases hv : loadVidMemF n c e g with ⟨e3, g3⟩
        have h2 := ihVid c e g
        rw [hv] at h2
        simp only [hr, hv]
        split_ifs <;>
          first
            | exact flagsLe_trans h1 (flagsLe_setMsaa e2)
            | exact flagsLe_trans h2 (flagsLe_setMsaa e3)
    · intro c e g
      rw [loadSysMemF]
      split
      · exact flagsLe_refl e
      · rcases hv : loadVidMemF n c e g with ⟨e2, g2⟩
        have h1 := ihVid c e g
        rw [hv] at h1
        simp only [hv]
        exact flagsLe_trans h1 (flagsLe_setSys e2)

/-- After any successful-fuel run of `loadVidMemF`, video memory is marked
up to date. -/
theorem loadVidMemF_vid (n : Nat) (c : Cfg) (e : LockData) (g : Glob) :
    ((loadVidMemF (n + 1) c e g).1).isVidMemUpToDate = true := by
  rw [loadVidMemF]
  split
  · next h => exact h
  · rcases hr : loadMsaaResolvedF n c { e with isVidMemUpToDate := true } g with ⟨e2, g2⟩
    have h1 := (loadsMonoAll n).2.2.1 c { e with isVidMemUpToDate := true } g
    rw [hr] at h1
    have hv : e2.isVidMemUpToDate = true := h1.2.1 (by simp)
    simp only [hr]
    split_ifs <;> first | exact hv | simp

theorem loadVidMemResource_vid (c : Cfg) (e : LockData) (g : Glob) :
    ((loadVidMemResource c e g).1).isVidMemUpToDate = true :=
  loadVidMemF_vid 15 c e g

/-- A dominated entry inherits invariant I1. -/
theorem inv1_mono {e e' : LockData} (h : e.inv1) (hle : flagsLe e e') : e'.inv1 := by
  rcases h with h | h | h | h
  · exact Or.inl (hle.1 h)
  · exact Or.inr (Or.inl (hle.2.1 h))
  · exact Or.inr (Or.inr (Or.inl (hle.2.2.1 h)))
  · exact Or.inr (Or.inr (Or.inr (hle.2.2.2 h)))

/-- Fixture: the all-zero driver result oracle (every call returns S_OK). -/
def oracleZero : Nat → Int := fun _ => 0

/-- Fixture: a quiet process state with an available Surface Repository. -/
def gFix : Glob :=
  ⟨[], false, 0, oracleZero, true, true, false, false, false, true, false, ⟨0, 0, 0, 0⟩, false⟩

/-- C5: `loadVidMemResource` is idempotent.  When `isVidMemUpToDate` is
already true, the call returns with the entry and the global state (events,
driver calls) completely unchanged; consequently the second of two
successive calls with no intervening write is a no-op, so the underlying
copy happens at most once. -/
theorem c5_loadVidMemResource_idempotent :
    (∀ (c : Cfg) (e : LockData) (g : Glob), e.isVidMemUpToDate = true →
      loadVidMemResource c e g = (e, g)) ∧
    (∀ (c : Cfg) (e : LockData) (g : Glob),
      loadVidMemResource c (loadVidMemResource c e g).1 (loadVidMemResource c e g).2 =
        loadVidMemResource c e g) := by
  have hup : ∀ (c : Cfg) (e : LockData) (g : Glob), e.isVidMemUpToDate = true →
      loadVidMemResource c e g = (e, g) := by
    intro c e g h
    show loadVidMemF (15 + 1) c e g = (e, g)
    rw [loadVidMemF, if_pos h]
  refine ⟨hup, fun c e g => ?_⟩
  exact (hup c (loadVidMemResource c e g).1 (loadVidMemResource c e g).2
    (loadVidMemResource_vid c e g)).trans rfl

/-- C5 witness: the theorem applied at a concrete up-to-date entry. -/
theorem c5_witness :
    loadVidMemResource
      ⟨true, true, false, false, false, false, true, false, false, false, false, true,
        22, 22, 4, false, true, false, false, false⟩
      ⟨false, true, false, false, false⟩ gFix = (⟨false, true, false, false, false⟩, gFix) :=
  c5_loadVidMemResource_idempotent.1 _ _ _ rfl

/-- Fixture: a multisampled video-memory depth buffer on a device without
hardware depth resolve. -/
def cfgDepthNoResolve : Cfg :=
  ⟨false, true, true, false, false, true, false, false, false, false, false, false,
    77, 77, 4, false, false, false, false, true⟩

/-- Fixture: an entry whose only valid representation is the multisample
surface. -/
def entryMsaaOnly : LockData := ⟨false, false, true, false, false⟩

/-- C3 counterexample: on the unsupported-depth-resolve path,
`loadMsaaResolvedResource` does NOT leave `isMsaaResolvedUpToDate` false as
claimed: it marks the resolved surface up to date (line 1239 runs
unconditionally). -/
theorem c3_counterexample :
    ((loadMsaaResolvedResource cfgDepthNoResolve entryMsaaOnly gFix).1).isMsaaResolvedUpToDate
      = true := by
  decide

/-- C3 (amended): for a multisampled depth-format resource on a device
without depth-resolve support, requesting the resolved representation
skips the resolve and issues no copy or driver call (the destination
surface is untouched), emits the rate-limited warning exactly once across
any number of calls, and marks `isMsaaResolvedUpToDate` TRUE (not false),
which is also why every later call returns immediately. -/
theorem c3_unsupported_depth_resolve_amended
    (c : Cfg) (e : LockData) (g : Glob)
    (hz : c.zBuffer = true) (hsup : c.msaaDepthResolveSupported = false)
    (hmsaa : e.isMsaaUpToDate = true) (hres : e.isMsaaResolvedUpToDate = false)
    (href : e.isRefLocked = false) (hw : g.warnedOnce = false) :
    let r := loadMsaaResolvedResource c e g
    r.1 = { e with isMsaaResolvedUpToDate := true } ∧
    r.2.events = Event.warnMsaaResolve :: g.events ∧
    r.2.calls = g.calls ∧
    r.2.warnedOnce = true ∧
    loadMsaaResolvedResource c r.1 r.2 = r := by
  intro r
  have hlock : ∀ (m : Nat) (g' : Glob), loadFromLockRefF m c e g' = (e, g') := by
    intro m g'
    match m with
    | 0 => rfl
    | k + 1 =>
      rw [loadFromLockRefF, if_neg]
      simp [href]
  have hr : r = ({ e with isMsaaResolvedUpToDate := true }, g.logOnceMsaaResolveWarning) := by
    show loadMsaaResolvedF (15 + 1) c e g = _
    rw [loadMsaaResolvedF]
    simp only [hlock 15 g, hres, hmsaa, hz, hsup]
    simp [hres, hmsaa, hz, hsup]
  have hwarm : g.logOnceMsaaResolveWarning =
      { g with warnedOnce := true, events := Event.warnMsaaResolve :: g.events } := by
    rw [Glob.logOnceMsaaResolveWarning, if_neg]
    simp [hw]
  refine ⟨by rw [hr], by rw [hr, hwarm], by rw [hr, hwarm], by rw [hr, hwarm], ?_⟩
  have hlock2 : ∀ (m : Nat) (g' : Glob),
      loadFromLockRefF m c { e with isMsaaResolvedUpToDate := true } g' =
        ({ e with isMsaaResolvedUpToDate := true }, g') := by
    intro m g'
    match m with
    | 0 => rfl
    | k + 1 =>
      rw [loadFromLockRefF, if_neg]
      simp [href]
  show loadMsaaResolvedF (15 + 1) c r.1 r.2 = r
  rw [hr, loadMsaaResolvedF]
  simp only [hlock2 15]
  simp

/-- C3 witness: the amended theorem applied at the concrete depth-buffer
fixture. -/
theorem c3_witness :
    (loadMsaaResolvedResource cfgDepthNoResolve entryMsaaOnly gFix).2.events =
      Event.warnMsaaResolve :: gFix.events :=
  (c3_unsupported_depth_resolve_amended cfgDepthNoResolve entryMsaaOnly gFix
    rfl rfl rfl rfl rfl rfl).2.1

/-- `Resource::prepareForCpuWrite` at the resource level. -/
def Res.prepareForCpuWriteR (r : Res) (g : Glob) (i : Nat) : Res × Glob :=
  r.onEntry i prepareForCpuWrite g

/-- `Resource::prepareForGpuWrite` at the resource level. -/
def Res.prepareForGpuWriteR (r : Res) (g : Glob) (i : Nat) : Res × Glob :=
  r.onEntry i prepareForGpuWrite g

theorem onEntry_entry_self (r : Res) (i : Nat)
    (f : Cfg → LockData → Glob → LockData × Glob) (g : Glob) :
    (((r.onEntry i f g).1).entry i) = (f r.cfg (r.entry i) g).1 := by
  rcases hf : f r.cfg (r.entry i) g with ⟨e, g'⟩
  simp [Res.onEntry, Res.setEntry, hf]

theorem validCount_clear_sys (x : LockData) :
    ({ clearUpToDateFlags x with isSysMemUpToDate := true } : LockData).validCount = 1 := by
  simp [LockData.validCount, clearUpToDateFlags]

theorem validCount_clear_vid (x : LockData) :
    ({ clearUpToDateFlags x with isVidMemUpToDate := true } : LockData).validCount = 1 := by
  simp [LockData.validCount, clearUpToDateFlags]

theorem validCount_clear_msaa (x : LockData) :
    ({ clearUpToDateFlags x with isMsaaUpToDate := true } : LockData).validCount = 1 := by
  simp [LockData.validCount, clearUpToDateFlags]

theorem validCount_clear_res (x : LockData) :
    ({ clearUpToDateFlags x with isMsaaResolvedUpToDate := true } : LockData).validCount = 1 := by
  simp [LockData.validCount, clearUpToDateFlags]

theorem prepareForCpuWrite_spec (c : Cfg) (e : LockData) (g : Glob)
    (h : c.hasLockResource = true) :
    (prepareForCpuWrite c e g).1.validCount = 1 ∧
      (prepareForCpuWrite c e g).1.isSysMemUpToDate = true := by
  rw [prepareForCpuWrite, if_pos h]
  refine ⟨?_, ?_⟩ <;> split <;> simp [LockData.validCount, clearUpToDateFlags]

theorem prepareForGpuWrite_spec (c : Cfg) (e : LockData) (g : Glob)
    (h : c.hasLockResource = true) :
    (prepareForGpuWrite c e g).1.validCount = 1 ∧
    (c.hasMsaaSurface = true →
      (prepareForGpuWrite c e g).1.isMsaaUpToDate = true) ∧
    (c.hasMsaaSurface = false → c.hasMsaaResolvedSurface = true →
      (prepareForGpuWrite c e g).1.isMsaaResolvedUpToDate = true) ∧
    (c.hasMsaaSurface = false → c.hasMsaaResolvedSurface = false →
      (prepareForGpuWrite c e g).1.isVidMemUpToDate = true) := by
  rw [prepareForGpuWrite, if_pos (Or.inl h)]
  by_cases h1 : c.hasMsaaSurface = true
  · rw [if_pos h1]
    rcases hl : loadMsaaResource c e g with ⟨e1, g1⟩
    simp only [hl]
    exact ⟨validCount_clear_msaa e1, fun _ => trivial,
      fun hm _ => by simp [hm] at h1, fun hm _ => by simp [hm] at h1⟩
  · rw [if_neg h1]
    by_cases h2 : c.hasMsaaResolvedSurface = true
    · rw [if_pos h2]
      rcases hl : loadMsaaResolvedResource c e g with ⟨e1, g1⟩
      simp only [hl]
      exact ⟨validCount_clear_res e1, fun hm => absurd hm h1,
        fun _ _ => trivial, fun _ hm2 => by simp [hm2] at h2⟩
    · rw [if_neg h2]
      rcases hl : loadVidMemResource c e g with ⟨e1, g1⟩
      simp only [hl]
      exact ⟨validCount_clear_vid e1, fun hm => absurd hm h1,
        fun _ hm2 => absurd hm2 h2, fun _ _ => trivial⟩

theorem prepareForBltDstE_spec (c : Cfg) (e : LockData) (g : Glob)
    (h : c.hasLockResource = true) :
    (prepareForBltDstE c e g).1.validCount = 1 ∧
    ((prepareForBltDstE c e g).2.2 = BltDstTarget.msaa →
      (prepareForBltDstE c e g).1.isMsaaUpToDate = true) ∧
    ((prepareForBltDstE c e g).2.2 = BltDstTarget.msaaResolved →
      (prepareForBltDstE c e g).1.isMsaaResolvedUpToDate = true) ∧
    ((prepareForBltDstE c e g).2.2 = BltDstTarget.self →
      (prepareForBltDstE c e g).1.isVidMemUpToDate = true) := by
  rw [prepareForBltDstE, if_pos (Or.inl h)]
  rcases hl : loadFromLockRefResource c e g with ⟨e1, g1⟩
  simp only [hl]
  by_cases h1 : e1.isMsaaUpToDate = true
  · rw [if_pos h1]
    exact ⟨validCount_clear_msaa e1, fun _ => rfl,
      fun ht => BltDstTarget.noConfusion ht, fun ht => BltDstTarget.noConfusion ht⟩
  · rw [if_neg h1]
    by_cases h2 : e1.isMsaaResolvedUpToDate = true
    · rw [if_pos h2]
      exact ⟨validCount_clear_res e1, fun ht => BltDstTarget.noConfusion ht,
        fun _ => rfl, fun ht => BltDstTarget.noConfusion ht⟩
    · rw [if_neg h2]
      rcases hv : loadVidMemResource c e1 g1 with ⟨e2, g2⟩
      simp only [hv]
      exact ⟨validCount_clear_vid e2, fun ht => BltDstTarget.noConfusion ht,
        fun ht => BltDstTarget.noConfusion ht, fun _ => trivial⟩

theorem prepareForBltDst_entry (r : Res) (g : Glob) (i : Nat) (rect : WRect) :
    (((r.prepareForBltDst g i rect).1).entry i) =
      (prepareForBltDstE r.cfg (r.entry i) g).1 := by
  rcases hp : prepareForBltDstE r.cfg (r.entry i) g with ⟨e, g', tgt⟩
  rw [Res.prepareForBltDst]
  simp only [hp]
  cases tgt <;> simp [Res.setEntry, hp]

theorem prepareForBltDst_target (r : Res) (g : Glob) (i : Nat) (rect : WRect) :
    (r.prepareForBltDst g i rect).2.2.1 = (prepareForBltDstE r.cfg (r.entry i) g).2.2 := by
  rcases hp : prepareForBltDstE r.cfg (r.entry i) g with ⟨e, g', tgt⟩
  rw [Res.prepareForBltDst]
  simp only [hp]
  cases tgt <;> rfl

/-- Fixture: a plain video-memory depth buffer (lock data bootstrapped by
the constructor, no lock resource, no auxiliary surfaces). -/
def cfgDepthPlain : Cfg :=
  ⟨false, false, false, false, false, true, false, false, false, false, false, true,
    77, 77, 4, false, true, false, false, false⟩

/-- Fixture: that depth buffer with one subresource whose system- and
video-memory flags are both true, exactly as the constructor leaves it. -/
def resDepthPlain : Res :=
  { cfg := cfgDepthPlain, size := 1, entry := fun _ => ⟨true, true, false, false, false⟩,
    palUTD := false, surfW := fun _ => 64, surfH := fun _ => 64,
    msCfgCode := 0, fmtCfgCode := 77, scaledW := 64, scaledH := 64 }

/-- C1 counterexample: a resource with non-empty lock data (a video-memory
depth buffer as built by the constructor) on which `prepareForGpuWrite`
is a guarded no-op: after the call TWO validity flags are true, not
exactly one as claimed. -/
theorem c1_counterexample :
    resDepthPlain.size = 1 ∧
      (((resDepthPlain.prepareForGpuWriteR gFix 0).1).entry 0).validCount = 2 := by
  constructor
  · rfl
  · decide

/-- C1 (amended): for every subresource of a resource that has a lock
resource (`m_lockResource` non-null, rather than merely non-empty lock
data), each write-path operation (`prepareForCpuWrite`,
`prepareForGpuWrite`, preparing as blit destination) leaves exactly one
validity flag true for that subresource — the flag of the representation
just written: system memory for the CPU write path; for the GPU write
path the written tier (msaa if a multisample surface exists, else the
msaa-resolved surface if it exists, else video memory); for the blit
destination the tier the returned routing target points at. -/
theorem c1_write_paths_exactly_one_amended (r : Res) (g : Glob) (i : Nat) (rect : WRect)
    (h : r.cfg.hasLockResource = true) :
    ((((r.prepareForCpuWriteR g i).1).entry i).validCount = 1 ∧
      (((r.prepareForCpuWriteR g i).1).entry i).isSysMemUpToDate = true) ∧
    ((((r.prepareForGpuWriteR g i).1).entry i).validCount = 1 ∧
      (r.cfg.hasMsaaSurface = true →
        (((r.prepareForGpuWriteR g i).1).entry i).isMsaaUpToDate = true) ∧
      (r.cfg.hasMsaaSurface = false → r.cfg.hasMsaaResolvedSurface = true →
        (((r.prepareForGpuWriteR g i).1).entry i).isMsaaResolvedUpToDate = true) ∧
      (r.cfg.hasMsaaSurface = false → r.cfg.hasMsaaResolvedSurface = false →
        (((r.prepareForGpuWriteR g i).1).entry i).isVidMemUpToDate = true)) ∧
    ((((r.prepareForBltDst g i rect).1).entry i).validCount = 1 ∧
      ((r.prepareForBltDst g i rect).2.2.1 = BltDstTarget.msaa →
        (((r.prepareForBltDst g i rect).1).entry i).isMsaaUpToDate = true) ∧
      ((r.prepareForBltDst g i rect).2.2.1 = BltDstTarget.msaaResolved →
        (((r.prepareForBltDst g i rect).1).entry i).isMsaaResolvedUpToDate = true) ∧
      ((r.prepareForBltDst g i rect).2.2.1 = BltDstTarget.self →
        (((r.prepareForBltDst g i rect).1).entry i).isVidMemUpToDate = true)) := by
  refine ⟨?_, ?_, ?_⟩
  · rw [Res.prepareForCpuWriteR, onEntry_entry_self]
    exact prepareForCpuWrite_spec r.cfg (r.entry i) g h
  · rw [Res.prepareForGpuWriteR, onEntry_entry_self]
    exact prepareForGpuWrite_spec r.cfg (r.entry i) g h
  · rw [prepareForBltDst_entry, prepareForBltDst_target]
    exact prepareForBltDstE_spec r.cfg (r.entry i) g h

/-- Fixture: an offscreen render target backed by a staging lock
resource. -/
def cfgStagedRT : Cfg :=
  ⟨true, false, false, false, false, false, true, false, false, false, false, true,
    22, 22, 4, false, true, false, false, false⟩

/-- Fixture: that render target with one subresource, system memory
valid. -/
def resStagedRT : Res :=
  { cfg := cfgStagedRT, size := 1, entry := fun _ => ⟨true, false, false, false, false⟩,
    palUTD := false, surfW := fun _ => 64, surfH := fun _ => 64,
    msCfgCode := 0, fmtCfgCode := 22, scaledW := 64, scaledH := 64 }

/-- C1 witness: the amended theorem at the staged render-target fixture
(no msaa surfaces, so the GPU write lands in video memory and its flag is
the surviving one). -/
theorem c1_witness :
    (((resStagedRT.prepareForGpuWriteR gFix 0).1).entry 0).validCount = 1 ∧
      (((resStagedRT.prepareForGpuWriteR gFix 0).1).entry 0).isVidMemUpToDate = true :=
  have h := c1_write_paths_exactly_one_amended resStagedRT gFix 0 ⟨0, 0, 4, 4⟩ rfl
  ⟨h.2.1.1, h.2.1.2.2.2 rfl rfl⟩

/-- C10: locking any resource whose fixed data carries a multisample type
other than NONE returns E_FAIL immediately, with the resource state and
the global state (lock data, validity flags, driver calls) completely
unchanged. -/
theorem c10_lock_multisampled_fails (r : Res) (g : Glob) (i : Nat) (readOnly : Bool)
    (h : r.cfg.msaaTypeNone = false) :
    Res.lock r g i readOnly = (r, g, E_FAIL) := by
  rw [Res.lock, if_pos h]

/-- Fixture: a multisampled render target (fixed multisample type not
NONE). -/
def cfgMsaaRT : Cfg :=
  { cfgStagedRT with
    msaaTypeNone := false
    hasMsaaSurface := true
    hasMsaaResolvedSurface := true }

def resMsaaRT : Res :=
  { cfg := cfgMsaaRT,
    size := 1, entry := fun _ => ⟨false, true, false, false, false⟩,
    palUTD := false, surfW := fun _ => 64, surfH := fun _ => 64,
    msCfgCode := 1, fmtCfgCode := 22, scaledW := 64, scaledH := 64 }

/-- C10 witness: the theorem at the multisampled fixture. -/
theorem c10_witness : Res.lock resMsaaRT gFix 0 false = (resMsaaRT, gFix, E_FAIL) :=
  c10_lock_multisampled_fails resMsaaRT gFix 0 false rfl

/-- C6: a system-memory creation request with exactly one subresource,
zero depth and a format of known nonzero bytes-per-pixel (with the global
overrides inactive and no desktop-mirroring flag, as for an application
creation request) has its fixed width (resp. height) clamped to the
device's maximum texture width (resp. height) with the oversized flag set
whenever the requested dimension exceeds the capability; and a subsequent
lock on any oversized resource (with multisample type NONE and no blit in
progress) is served through the internal `bltLock` path, not the driver
lock. -/
theorem c6_oversize_clamp_and_lock_routing :
    (∀ (p : CreateParams) (env : CreateEnv),
      p.poolSysMem = true → p.surfCount = 1 → p.depth0 = 0 → env.bppOf p.format ≠ 0 →
      p.matchGdiPrimary = false → env.formatOverride = D3DDDIFMT_UNKNOWN →
      env.msaaOverrideNone = true →
      (env.maxTextureWidth < p.surfW 0 →
        (fixResourceData p env).1.surfW 0 = env.maxTextureWidth ∧
          (fixResourceData p env).2 = true) ∧
      (env.maxTextureHeight < p.surfH 0 →
        (fixResourceData p env).1.surfH 0 = env.maxTextureHeight ∧
          (fixResourceData p env).2 = true)) ∧
    (∀ (r : Res) (g : Glob) (i : Nat) (readOnly : Bool),
      r.cfg.isOversized = true → r.cfg.msaaTypeNone = true → g.bltSrcActive = false →
      Res.lock r g i readOnly = Res.bltLock r g i readOnly) := by
  constructor
  · intro p env hp hs hd hb hm hf ho
    constructor
    · intro hw
      constructor <;> simp [fixResourceData, hm, hf, ho, hp, hs, hd, hb, hw]
    · intro hh
      constructor <;> simp [fixResourceData, hm, hf, ho, hp, hs, hd, hb, hh]
  · intro r g i readOnly hov hms hbs
    rw [Res.lock]
    rw [if_neg (by simp [hms]), if_neg (by simp [hbs]), if_pos (Or.inr hov)]

/-- Fixture: the spec's 9000x9000 system-memory request. -/
def pOversized : CreateParams :=
  { vertexBuffer := false, mightDrawFromLocked := false, matchGdiPrimary := false,
    zBuffer := false, renderTarget := false, texture := false, otherTypeFlags := false,
    poolSysMem := true, surfCount := 1, surfW := fun _ => 9000, surfH := fun _ => 9000,
    depth0 := 0, format := 22, msTypeNone := true }

/-- Fixture: adapter inputs of `updateConfig` leaving configuration
unchanged. -/
def ucFix : UCParams :=
  { newMsCode := 0, newMsNone := true, newFmtCode := 22, newScaledW := 64, newScaledH := 64,
    msaaSurfaceAvail := true, nullSurfaceAvail := true, msaaResolvedAvail := true,
    msaaResolvedRetryAvail := true, lockRefAvail := true }

/-- Fixture: a construction environment with an 8192x8192 device limit and
inactive overrides. -/
def envFix : CreateEnv :=
  { primaryMonitorRect := ⟨0, 0, 640, 480⟩, realMonitorRect := ⟨0, 0, 1920, 1080⟩,
    maxTextureWidth := 8192, maxTextureHeight := 8192, formatOverride := 0,
    msaaOverrideNone := true, inCreateSurface := false, msaaDepthResolveSupported := true,
    bppOf := fun f => if f = 41 then 1 else if f = 0 then 0 else 4, uc := ucFix }

/-- C6 witness: the spec's oversize-clamp scenario (9000x9000 against
8192x8192) and the lock routing on an oversized resource. -/
theorem c6_witness :
    ((fixResourceData pOversized envFix).1.surfW 0 = 8192 ∧
      (fixResourceData pOversized envFix).2 = true) ∧
    Res.lock { resStagedRT with cfg := { cfgStagedRT with isOversized := true } } gFix 0 false
      = Res.bltLock { resStagedRT with cfg := { cfgStagedRT with isOversized := true } }
          gFix 0 false := by
  constructor
  · exact (c6_oversize_clamp_and_lock_routing.1 pOversized envFix rfl rfl rfl (by decide)
      rfl rfl rfl).1 (by decide)
  · exact c6_oversize_clamp_and_lock_routing.2 _ gFix 0 false rfl rfl rfl

theorem setFullscreenModeG_calls (g : Glob) (b : Bool) (pr rr : WRect) :
    (setFullscreenModeG g b pr rr).calls = g.calls := by
  rw [setFullscreenModeG]
  split_ifs <;> rfl

theorem setFullscreenModeG_oracle (g : Glob) (b : Bool) (pr rr : WRect) :
    (setFullscreenModeG g b pr rr).oracle = g.oracle := by
  rw [setFullscreenModeG]
  split_ifs <;> rfl

/-- C7: construction is all-or-nothing.  A creation request with both the
VertexBuffer and MightDrawFromLocked flags outside system memory raises
E_FAIL before any driver resource is created (the process state is
returned untouched, so no create call was issued); and whenever the
underlying driver create call fails, the constructor propagates exactly
that result code as the raised error, so no partially constructed
Resource is observable (the error branch carries no resource value). -/
theorem c7_construction_all_or_nothing :
    (∀ (p : CreateParams) (g : Glob) (env : CreateEnv),
      p.vertexBuffer = true → p.mightDrawFromLocked = true → p.poolSysMem = false →
      mkResource p g env = (g, Except.error E_FAIL)) ∧
    (∀ (p : CreateParams) (g : Glob) (env : CreateEnv),
      ¬(p.vertexBuffer = true ∧ p.mightDrawFromLocked = true ∧ p.poolSysMem = false) →
      FAILED (g.oracle g.calls) = true →
      (mkResource p g env).2 = Except.error (g.oracle g.calls)) := by
  constructor
  · intro p g env hv hm hp
    rw [mkResource, if_pos ⟨hv, hm, hp⟩]
  · intro p g env hpre hfail
    rw [mkResource, if_neg hpre]
    by_cases hgdi : p.matchGdiPrimary = true
    · rw [if_pos hgdi]
      simp only [Glob.driverCall]
      rw [setFullscreenModeG_calls, setFullscreenModeG_oracle, if_pos hfail]
    · rw [if_neg hgdi]
      simp only [Glob.driverCall]
      rw [if_pos hfail]

/-- Fixture: the invalid vertex-buffer request (VertexBuffer and
MightDrawFromLocked outside system memory). -/
def pBadVB : CreateParams :=
  { pOversized with vertexBuffer := true, mightDrawFromLocked := true, poolSysMem := false }

/-- C7 witness: the invalid vertex-buffer request raises E_FAIL with the
process state untouched. -/
theorem c7_witness : mkResource pBadVB gFix envFix = (gFix, Except.error E_FAIL) :=
  c7_construction_all_or_nothing.1 pBadVB gFix envFix rfl rfl rfl

theorem oracle_logOnce (g : Glob) : (g.logOnceMsaaResolveWarning).oracle = g.oracle := by
  rw [Glob.logOnceMsaaResolveWarning]
  split_ifs <;> rfl

theorem oracle_shaderBltF (c : Cfg) (a b k : Bool) (g : Glob) :
    ((shaderBltF c a b k g).2).oracle = g.oracle := by
  rw [shaderBltF]
  by_cases h0 : (a = false ∨ b = true) ∧
      (if c.zBuffer = true then c.hasMsaaResolvedSurface else g.tempTextureAvail) = false
  · rw [if_pos h0]
  · rw [if_neg h0]
    rcases hp1 : (if a = false ∨ b = true then g.driverCall Event.copyRegion
        else (S_OK, g)) with ⟨r1, g1⟩
    have hg1 : g1.oracle = g.oracle := by
      have := congrArg (fun p => p.2.oracle) hp1
      simp only at this
      rw [← this]
      split_ifs <;> rfl
    simp only [hp1]
    split
    · exact hg1
    · set g3 := if (a = false ∨ b = true) ∧ b = true then g1.notifyLockCall else g1 with hg3def
      have hg3 : g3.oracle = g1.oracle := by
        rw [hg3def]
        split_ifs <;> rfl
      split
      · exact hg3.trans hg1
      · rcases hp2 : (if c.renderTarget = false ∧ k = true then g3.driverCall Event.copyRegion
            else (S_OK, g3)) with ⟨r2, g4⟩
        have hg4 : g4.oracle = g3.oracle := by
          have := congrArg (fun p => p.2.oracle) hp2
          simp only at this
          rw [← this]
          split_ifs <;> rfl
        simp only [hp2]
        split
        · exact (hg4.trans hg3).trans hg1
        · set g5 := if c.zBuffer = true then g4.emit Event.depthBlt
            else g4.emit Event.textureBlt with hg5def
          have hg5 : g5.oracle = g4.oracle := by
            rw [hg5def]
            split_ifs <;> rfl
          rcases hp3 : (if c.renderTarget = false then g5.driverCall Event.copyRegion
              else (S_OK, g5)) with ⟨r3, g6⟩
          have hg6 : g6.oracle = g5.oracle := by
            have := congrArg (fun p => p.2.oracle) hp3
            simp only at this
            rw [← this]
            split_ifs <;> rfl
          simp only [hp3]
          split <;> exact ((hg6.trans hg5).trans ((hg4.trans hg3).trans hg1))

/-- The materialization engine never replaces the driver result oracle:
only the call counter and the event trace advance. -/
theorem loadsOracleAll : ∀ fuel : Nat,
    (∀ c e g, ((loadFromLockRefF fuel c e g).2).oracle = g.oracle) ∧
    (∀ c e g, ((loadVidMemF fuel c e g).2).oracle = g.oracle) ∧
    (∀ c e g, ((loadMsaaResolvedF fuel c e g).2).oracle = g.oracle) ∧
    (∀ c e g, ((loadMsaaF fuel c e g).2).oracle = g.oracle) ∧
    (∀ c e g, ((loadSysMemF fuel c e g).2).oracle = g.oracle) := by
  intro fuel
  induction fuel with
  | zero => refine ⟨?_, ?_, ?_, ?_, ?_⟩ <;> intro c e g <;> rfl
  | succ n ih =>
    obtain ⟨ihRef, ihVid, ihRes, ihMsaa, ihSys⟩ := ih
    refine ⟨?_, ?_, ?_, ?_, ?_⟩
    · intro c e g
      rw [loadFromLockRefF]
      split
      · rcases hv : loadVidMemF n c { e with isRefLocked := false } g with ⟨e2, g2⟩
        have h2 : g2.oracle = g.oracle := by
          have := ihVid c { e with isRefLocked := false } g
          rw [hv] at this
          exact this
        simp only [hv]
        split_ifs <;> simp [Glob.driverCall, Glob.emit, h2]
      · rfl
    · intro c e g
      rw [loadVidMemF]
      split
      · rfl
      · rcases hr : loadMsaaResolvedF n c { e with isVidMemUpToDate := true } g with ⟨e2, g2⟩
        have h2 : g2.oracle = g.oracle := by
          have := ihRes c { e with isVidMemUpToDate := true } g
          rw [hr] at this
          exact this
        simp only [hr]
        split_ifs <;>
          simp [Glob.driverCall, Glob.emit, Glob.notifyLockCall, h2, oracle_shaderBltF]
    · intro c e g
      rw [loadMsaaResolvedF]
      rcases hl : loadFromLockRefF n c e g with ⟨e1, g1⟩
      have h1 : g1.oracle = g.oracle := by
        have := ihRef c e g
        rw [hl] at this
        exact this
      simp only [hl]
      split
      · exact h1
      · rcases hv : loadVidMemF n c e1 g1 with ⟨e2, g2⟩
        have h2 : g2.oracle = g1.oracle := by
          have := ihVid c e1 g1
          rw [hv] at this
          exact this
        simp only [hv]
        split_ifs <;>
          simp [Glob.driverCall, Glob.emit, resolveMsaaDepthBufferG, oracle_logOnce,
            oracle_shaderBltF, h1, h2]
    · intro c e g
      rw [loadMsaaF]
      split
      · rfl
      · rcases hr : loadMsaaResolvedF n c e g with ⟨e2, g2⟩
        have h2 : g2.oracle = g.oracle := by
          have := ihRes c e g
          rw [hr] at this
          exact this
        rcases hv : loadVidMemF n c e g with ⟨e3, g3⟩
        have h3 : g3.oracle = g.oracle := by
          have := ihVid c e g
          rw [hv] at this
          exact this
        simp only [hr, hv]
        split_ifs <;> simp [Glob.driverCall, Glob.emit, h2, h3]
    · intro c e g
      rw [loadSysMemF]
      split
      · rfl
      · rcases hv : loadVidMemF n c e g with ⟨e2, g2⟩
        have h2 : g2.oracle = g.oracle := by
          have := ihVid c e g
          rw [hv] at this
          exact this
        simp only [hv]
        simp [Glob.driverCall, Glob.notifyLockCall, h2]

theorem oracle_loadFromLockRefResource (c : Cfg) (e : LockData) (g : Glob) :
    ((loadFromLockRefResource c e g).2).oracle = g.oracle :=
  (loadsOracleAll LOAD_FUEL).1 c e g

theorem oracle_loadVidMemResource (c : Cfg) (e : LockData) (g : Glob) :
    ((loadVidMemResource c e g).2).oracle = g.oracle :=
  (loadsOracleAll LOAD_FUEL).2.1 c e g

theorem oracle_loadMsaaResolvedResource (c : Cfg) (e : LockData) (g : Glob) :
    ((loadMsaaResolvedResource c e g).2).oracle = g.oracle :=
  (loadsOracleAll LOAD_FUEL).2.2.1 c e g

theorem oracle_loadMsaaResource (c : Cfg) (e : LockData) (g : Glob) :
    ((loadMsaaResource c e g).2).oracle = g.oracle :=
  (loadsOracleAll LOAD_FUEL).2.2.2.1 c e g

theorem oracle_loadSysMemResource (c : Cfg) (e : LockData) (g : Glob) :
    ((loadSysMemResource c e g).2).oracle = g.oracle :=
  (loadsOracleAll LOAD_FUEL).2.2.2.2 c e g

attribute [irreducible] loadFromLockRefF loadVidMemF loadMsaaResolvedF loadMsaaF loadSysMemF

attribute [irreducible] loadFromLockRefResource loadVidMemResource loadMsaaResolvedResource

attribute [irreducible] loadMsaaResource loadSysMemResource

theorem oracle_prepareForCpuRead (c : Cfg) (e : LockData) (g : Glob) :
    ((prepareForCpuRead c e g).2).oracle = g.oracle := by
  rw [prepareForCpuRead]
  split_ifs
  · exact oracle_loadSysMemResource c e g
  · rfl

theorem oracle_prepareForCpuWrite (c : Cfg) (e : LockData) (g : Glob) :
    ((prepareForCpuWrite c e g).2).oracle = g.oracle := by
  rw [prepareForCpuWrite]
  split_ifs with h1 h2
  · rcases hv : loadVidMemResource c e g with ⟨e1, g1⟩
    have hv' : g1.oracle = g.oracle := by
      have := oracle_loadVidMemResource c e g
      rw [hv] at this
      exact this
    simp only [hv]
    rcases hs : loadSysMemResource c { e1 with isRefLocked := true }
        ((g1.driverCall .copyRegion).2) with ⟨e2, g2⟩
    have hs' : g2.oracle = g1.oracle := by
      have := oracle_loadSysMemResource c { e1 with isRefLocked := true }
        ((g1.driverCall .copyRegion).2)
      rw [hs] at this
      exact this
    simp only [hs]
    exact hs'.trans hv'
  · rcases hs : loadSysMemResource c e g with ⟨e2, g2⟩
    have hs' : g2.oracle = g.oracle := by
      have := oracle_loadSysMemResource c e g
      rw [hs] at this
      exact this
    simp only [hs]
    exact hs'
  · rfl

theorem oracle_bltLock (r : Res) (g : Glob) (i : Nat) (readOnly : Bool) :
    ((Res.bltLock r g i readOnly).2.1).oracle = g.oracle := by
  rw [Res.bltLock]
  split_ifs
  · exact oracle_prepareForCpuRead r.cfg (r.entry i) g
  · exact oracle_prepareForCpuWrite r.cfg (r.entry i) g
  · rfl

theorem bltLock_result (r : Res) (g : Glob) (i : Nat) (readOnly : Bool) :
    (Res.bltLock r g i readOnly).2.2 = S_OK := by
  rw [Res.bltLock]
  split_ifs <;> rfl

theorem oracle_lock (r : Res) (g : Glob) (i : Nat) (readOnly : Bool) :
    ((Res.lock r g i readOnly).2.1).oracle = g.oracle := by
  simp only [Res.lock]
  split_ifs
  · rfl
  · rfl
  · exact oracle_bltLock r g i readOnly
  · exact oracle_loadVidMemResource r.cfg (r.entry 0) g
  · rfl
  · exact oracle_loadVidMemResource r.cfg (r.entry 0) g
  · rfl

/-- A driver lock never returns S_FALSE when the driver result oracle
avoids it: the internal paths return E_FAIL, E_ABORT or S_OK; the
fall-through returns a driver result. -/
theorem lock_result_not_sfalse (r : Res) (g : Glob) (i : Nat) (readOnly : Bool)
    (hnosf : ∀ k, g.oracle k ≠ S_FALSE) :
    (Res.lock r g i readOnly).2.2 ≠ S_FALSE := by
  have haux : ∀ g' : Glob, g'.oracle = g.oracle → ∀ res : Int, res = g'.oracle g'.calls →
      res ≠ S_FALSE := by
    intro g' hg' res hres
    rw [hres, hg']
    exact hnosf _
  simp only [Res.lock]
  split_ifs
  · simp [E_FAIL, S_FALSE]
  · simp [E_ABORT, S_FALSE]
  · rw [bltLock_result]
    simp [S_OK, S_FALSE]
  · refine haux _ ?_ _ rfl
    exact oracle_loadVidMemResource r.cfg (r.entry 0) g
  · refine haux _ ?_ _ rfl
    rfl
  · refine haux _ ?_ _ rfl
    exact oracle_loadVidMemResource r.cfg (r.entry 0) g
  · refine haux _ ?_ _ rfl
    rfl

/-- Fixture: a plain system-memory palettized (P8) surface. -/
def cfgP8sys : Cfg :=
  ⟨false, false, false, false, false, false, false, false, false, true, false, true,
    41, 41, 1, false, true, false, false, false⟩

/-- Fixture: a P8 system-memory resource with one subresource. -/
def resP8a : Res :=
  { cfg := cfgP8sys, size := 1, entry := fun _ => ⟨true, false, false, false, false⟩,
    palUTD := false, surfW := fun _ => 64, surfH := fun _ => 64,
    msCfgCode := 0, fmtCfgCode := 41, scaledW := 64, scaledH := 64 }

/-- Fixture: a second P8 system-memory resource. -/
def resP8b : Res :=
  { cfg := cfgP8sys, size := 1, entry := fun _ => ⟨true, false, false, false, false⟩,
    palUTD := false, surfW := fun _ => 32, surfH := fun _ => 32,
    msCfgCode := 0, fmtCfgCode := 41, scaledW := 32, scaledH := 32 }

/-- C4 counterexample: two P8 resources with matching formats and NEITHER
side oversized — by the claim the CPU path must decline with S_FALSE, but
`bltViaCpu` performs the transfer (P8 is special-cased into the CPU path)
and returns S_OK. -/
theorem c4_counterexample :
    (Res.bltViaCpu resP8a resP8b gFix 0 0).2.2.2 = S_OK ∧ S_OK ≠ S_FALSE := by
  constructor
  · decide
  · decide

/-- C4 (amended): `bltViaCpu` declines with S_FALSE — leaving both
resources and the process state completely untouched, in particular
locking neither resource — exactly when the fixed formats differ, the
bytes-per-pixel is unknown, or the destination format is not the
palettized P8 format and neither side is oversized.  Conversely (for any
driver oracle that never returns S_FALSE, as a driver lock reports either
success or a failure code) the CPU path performs the transfer, returning
something other than S_FALSE, whenever the formats match with known
bytes-per-pixel and the format is P8 or at least one side is oversized. -/
theorem c4_bltViaCpu_guard_amended (dst src : Res) (g : Glob) (di si : Nat)
    (hnosf : ∀ k, g.oracle k ≠ S_FALSE) :
    ((dst.cfg.format ≠ src.cfg.format ∨ dst.cfg.bytesPerPixel = 0 ∨
        (dst.cfg.format ≠ D3DDDIFMT_P8 ∧ dst.cfg.isOversized = false ∧
          src.cfg.isOversized = false)) →
      Res.bltViaCpu dst src g di si = (dst, src, g, S_FALSE)) ∧
    (¬(dst.cfg.format ≠ src.cfg.format ∨ dst.cfg.bytesPerPixel = 0 ∨
        (dst.cfg.format ≠ D3DDDIFMT_P8 ∧ dst.cfg.isOversized = false ∧
          src.cfg.isOversized = false)) →
      (Res.bltViaCpu dst src g di si).2.2.2 ≠ S_FALSE) := by
  constructor
  · intro h
    rw [Res.bltViaCpu, if_pos h]
  · intro h
    rw [Res.bltViaCpu, if_neg h]
    rcases hsrc : Res.lock src g si (decide (src.cfg.poolSysMem = false)) with ⟨src1, g1, rs⟩
    have hg1 : g1.oracle = g.oracle := by
      have := oracle_lock src g si (decide (src.cfg.poolSysMem = false))
      rw [hsrc] at this
      exact this
    simp only [hsrc]
    split
    · next hf =>
      intro heq
      have hrs : rs = S_FALSE := heq
      rw [hrs] at hf
      simp [FAILED, S_FALSE] at hf
    · rcases hdst : Res.lock dst g1 di false with ⟨dst1, g2, rd⟩
      have hrd : rd ≠ S_FALSE := by
        have := lock_result_not_sfalse dst g1 di false (fun k => hg1 ▸ hnosf k)
        rw [hdst] at this
        exact this
      simp only [hdst]
      exact hrd

/-- C4 witness: the amended theorem declining a format-mismatched pair
(X8R8G8B8 destination, P8 source) with everything unchanged. -/
theorem c4_witness :
    Res.bltViaCpu resStagedRT resP8a gFix 0 0 = (resStagedRT, resP8a, gFix, S_FALSE) :=
  (c4_bltViaCpu_guard_amended resStagedRT resP8a gFix 0 0
      (fun k => by simp [gFix, oracleZero, S_FALSE])).1 (Or.inl (by decide))

/-- C9 witness: the theorem applied to the concrete 4:3 source inside a
16:9 destination. -/
theorem c9_witness :
    (calculateScaledRect ⟨0, 0, 4, 3⟩ ⟨0, 0, 16, 9⟩).left = cdiv (16 - 12) 2 ∧
    (calculateScaledRect ⟨0, 0, 4, 3⟩ ⟨0, 0, 16, 9⟩).right ≤ 16 :=
  have h := c9_calculateScaledRect_centered_within ⟨0, 0, 4, 3⟩ ⟨0, 0, 16, 9⟩
    (by decide) (by decide) (by decide) (by decide)
  ⟨by simpa using h.2.1, by simpa using h.2.2.2.2.2.1⟩

/-- Monotonicity of `loadFromLockRefResource` at the default fuel. -/
theorem flagsLe_loadFromLockRefResource (c : Cfg) (e : LockData) (g : Glob) :
    flagsLe e (loadFromLockRefResource c e g).1 := by
  rw [loadFromLockRefResource]
  exact (loadsMonoAll LOAD_FUEL).1 c e g

/-- Monotonicity of `loadVidMemResource` at the default fuel. -/
theorem flagsLe_loadVidMemResource (c : Cfg) (e : LockData) (g : Glob) :
    flagsLe e (loadVidMemResource c e g).1 := by
  rw [loadVidMemResource]
  exact (loadsMonoAll LOAD_FUEL).2.1 c e g

/-- Monotonicity of `loadMsaaResolvedResource` at the default fuel. -/
theorem flagsLe_loadMsaaResolvedResource (c : Cfg) (e : LockData) (g : Glob) :
    flagsLe e (loadMsaaResolvedResource c e g).1 := by
  rw [loadMsaaResolvedResource]
  exact (loadsMonoAll LOAD_FUEL).2.2.1 c e g

/-- Monotonicity of `loadMsaaResource` at the default fuel. -/
theorem flagsLe_loadMsaaResource (c : Cfg) (e : LockData) (g : Glob) :
    flagsLe e (loadMsaaResource c e g).1 := by
  rw [loadMsaaResource]
  exact (loadsMonoAll LOAD_FUEL).2.2.2.1 c e g

/-- Monotonicity of `loadSysMemResource` at the default fuel. -/
theorem flagsLe_loadSysMemResource (c : Cfg) (e : LockData) (g : Glob) :
    flagsLe e (loadSysMemResource c e g).1 := by
  rw [loadSysMemResource]
  exact (loadsMonoAll LOAD_FUEL).2.2.2.2 c e g

/-- `prepareForCpuRead` preserves I1 on an entry. -/
theorem inv1_prepareForCpuRead (c : Cfg) (e : LockData) (g : Glob) (h : e.inv1) :
    ((prepareForCpuRead c e g).1).inv1 := by
  rw [prepareForCpuRead]
  split
  · exact inv1_mono h (flagsLe_loadSysMemResource c e g)
  · exact h

/-- `prepareForCpuWrite` preserves I1 on an entry (it ends with system
memory marked valid whenever it does anything). -/
theorem inv1_prepareForCpuWrite (c : Cfg) (e : LockData) (g : Glob) (h : e.inv1) :
    ((prepareForCpuWrite c e g).1).inv1 := by
  rw [prepareForCpuWrite]
  split
  · exact Or.inl rfl
  · exact h

/-- `prepareForGpuRead` preserves I1 on an entry. -/
theorem inv1_prepareForGpuReadE (c : Cfg) (e : LockData) (g : Glob) (h : e.inv1) :
    ((prepareForGpuReadE c e g).1).inv1 := by
  rw [prepareForGpuReadE]
  split
  · rcases hl : loadFromLockRefResource c e g with ⟨e1, g1⟩
    have h1 : e1.inv1 := by
      have := flagsLe_loadFromLockRefResource c e g
      rw [hl] at this
      exact inv1_mono h this
    simp only [hl]
    split
    · rcases hr : loadMsaaResolvedResource c e1 g1 with ⟨e2, g2⟩
      have h2 : e2.inv1 := by
        have := flagsLe_loadMsaaResolvedResource c e1 g1
        rw [hr] at this
        exact inv1_mono h1 this
      simp only [hr]
      exact h2
    · rcases hv : loadVidMemResource c e1 g1 with ⟨e2, g2⟩
      have h2 : e2.inv1 := by
        have := flagsLe_loadVidMemResource c e1 g1
        rw [hv] at this
        exact inv1_mono h1 this
      simp only [hv]
      exact h2
  · exact h

/-- `prepareForGpuWrite` preserves I1 on an entry (the written tier's flag
ends true whenever it does anything). -/
theorem inv1_prepareForGpuWrite (c : Cfg) (e : LockData) (g : Glob) (h : e.inv1) :
    ((prepareForGpuWrite c e g).1).inv1 := by
  rw [prepareForGpuWrite]
  split
  · split
    · exact Or.inr (Or.inr (Or.inl rfl))
    · split
      · exact Or.inr (Or.inr (Or.inr rfl))
      · exact Or.inr (Or.inl rfl)
  · exact h

/-- `prepareForBltDst` preserves I1 on an entry. -/
theorem inv1_prepareForBltDstE (c : Cfg) (e : LockData) (g : Glob) (h : e.inv1) :
    ((prepareForBltDstE c e g).1).inv1 := by
  rw [prepareForBltDstE]
  split
  · rcases hl : loadFromLockRefResource c e g with ⟨e1, g1⟩
    simp only [hl]
    split
    · exact Or.inr (Or.inr (Or.inl rfl))
    · split
      · exact Or.inr (Or.inr (Or.inr rfl))
      · exact Or.inr (Or.inl rfl)
  · exact h

/-- The reconfiguration loop body preserves I1 on an entry: a
representation held only in the multisample/resolved surfaces is first
loaded into video memory, so clearing their flags leaves video memory (or
an untouched system-memory flag) valid. -/
theorem inv1_updateConfigEntry (c : Cfg) (e : LockData) (g : Glob) (h : e.inv1) :
    ((updateConfigEntry c e g).1).inv1 := by
  rw [updateConfigEntry]
  by_cases hm : e.isMsaaUpToDate = true ∨ e.isMsaaResolvedUpToDate = true
  · rw [if_pos hm]
    rcases hv : loadVidMemResource c e g with ⟨e1, g1⟩
    have h1 : e1.isVidMemUpToDate = true := by
      have := loadVidMemResource_vid c e g
      rw [hv] at this
      exact this
    simp only [hv]
    exact Or.inr (Or.inl h1)
  · rw [if_neg hm]
    rcases h with hs | hvv | hm1 | hr1
    · exact Or.inl hs
    · exact Or.inr (Or.inl hvv)
    · exact absurd (Or.inl hm1) hm
    · exact absurd (Or.inr hr1) hm

/-- Invariant I1 at the resource level: every subresource of the lock-data
vector has at least one validity flag set. -/
def Res.allValid (r : Res) : Prop :=
  ∀ i, i < r.size → (r.entry i).inv1

/-- Writing an entry that satisfies I1 (whenever it lands inside the
vector) preserves resource-level I1. -/
theorem allValid_setEntry_lt {r : Res} {i : Nat} {e : LockData}
    (h : r.allValid) (he : i < r.size → e.inv1) : (r.setEntry i e).allValid := by
  intro j hj
  show (if j = i then e else r.entry j).inv1
  split
  · next hji => exact he (hji ▸ hj)
  · exact h j hj

/-- Applying an I1-preserving entry operation preserves resource-level
I1. -/
theorem allValid_onEntry {r : Res} (i : Nat)
    (f : Cfg → LockData → Glob → LockData × Glob) (g : Glob)
    (h : r.allValid) (hf : ∀ e g1, e.inv1 → (f r.cfg e g1).1.inv1) :
    ((r.onEntry i f g).1).allValid := by
  intro j hj
  show (if j = i then (f r.cfg (r.entry i) g).1 else r.entry j).inv1
  split
  · next hji =>
    have hi : i < r.size := hji ▸ hj
    exact hf (r.entry i) g (h i hi)
  · exact h j hj

/-- The resource part of `prepareForBltDst` is a single entry write. -/
theorem prepareForBltDst_fst (r : Res) (g : Glob) (i : Nat) (rect : WRect) :
    (r.prepareForBltDst g i rect).1 =
      ({ r with palUTD := false } : Res).setEntry i
        (prepareForBltDstE r.cfg (r.entry i) g).1 := by
  rcases hp : prepareForBltDstE r.cfg (r.entry i) g with ⟨e1, g1, tgt⟩
  rw [Res.prepareForBltDst]
  simp only [hp]
  cases tgt <;> rfl

/-- `prepareForBltDst` preserves resource-level I1. -/
theorem allValid_prepareForBltDst {r : Res} (g : Glob) (i : Nat) (rect : WRect)
    (h : r.allValid) : ((r.prepareForBltDst g i rect).1).allValid := by
  rw [prepareForBltDst_fst]
  exact allValid_setEntry_lt h
    (fun hi => inv1_prepareForBltDstE r.cfg (r.entry i) g (h i hi))

/-- `prepareForBltSrc` preserves resource-level I1. -/
theorem allValid_prepareForBltSrc {r : Res} (g : Glob) (i : Nat) (h : r.allValid) :
    ((r.prepareForBltSrc g i).1).allValid := by
  rw [Res.prepareForBltSrc]
  split
  · exact allValid_onEntry i loadVidMemResource g h
      (fun e g1 he => inv1_mono he (flagsLe_loadVidMemResource _ e g1))
  · exact h

/-- `bltLock` preserves resource-level I1. -/
theorem allValid_bltLock {r : Res} (g : Glob) (i : Nat) (ro : Bool) (h : r.allValid) :
    ((r.bltLock g i ro).1).allValid := by
  rw [Res.bltLock]
  split
  · split
    · exact allValid_onEntry i prepareForCpuRead g h
        (fun e g1 he => inv1_prepareForCpuRead r.cfg e g1 he)
    · exact allValid_onEntry i prepareForCpuWrite g h
        (fun e g1 he => inv1_prepareForCpuWrite r.cfg e g1 he)
  · exact h

/-- `lock` preserves resource-level I1: the depth-buffer path loads video
memory before invalidating the msaa state, so the cleared entry keeps its
video-memory flag. -/
theorem allValid_lock {r : Res} (g : Glob) (i : Nat) (ro : Bool) (h : r.allValid) :
    ((Res.lock r g i ro).1).allValid := by
  simp only [Res.lock]
  split_ifs
  · exact h
  · exact h
  · exact allValid_bltLock g i ro h
  · have hall : ((({ r with palUTD := false } : Res).onEntry 0 loadVidMemResource g).1).allValid :=
      allValid_onEntry 0 loadVidMemResource g h
        (fun e g1 he => inv1_mono he (flagsLe_loadVidMemResource _ e g1))
    have hvid : (((({ r with palUTD := false } : Res).onEntry 0
        loadVidMemResource g).1).entry 0).isVidMemUpToDate = true := by
      rw [onEntry_entry_self]
      exact loadVidMemResource_vid _ _ _
    exact allValid_setEntry_lt hall (fun _ => Or.inr (Or.inl hvid))
  · exact h
  · exact allValid_onEntry 0 loadVidMemResource g h
      (fun e g1 he => inv1_mono he (flagsLe_loadVidMemResource _ e g1))
  · exact h

/-- `colorFill` preserves resource-level I1. -/
theorem allValid_colorFill {r : Res} (g : Glob) (i : Nat) (rect : WRect) (h : r.allValid) :
    ((Res.colorFill r g i rect).1).allValid := by
  simp only [Res.colorFill]
  split_ifs
  · exact h
  · exact h
  · exact allValid_prepareForBltDst g i (r.clipRect i rect) h

/-- `unlock` never changes the resource. -/
theorem unlock_fst (r : Res) (g : Glob) : (Res.unlock r g).1 = r := by
  rw [Res.unlock]
  split <;> rfl

/-- The GPU driver tail changes neither resource. -/
theorem bltViaGpuDriverTail_resources (dst src : Res) (g : Glob) (tgt : BltDstTarget)
    (b : Bool) :
    (Res.bltViaGpuDriverTail dst src g tgt b).1 = dst ∧
      (Res.bltViaGpuDriverTail dst src g tgt b).2.1 = src :=
  ⟨rfl, rfl⟩

/-- The shared GPU tail only touches the destination through
`prepareForBltDst` and leaves the source untouched. -/
theorem bltViaGpuTail_resources (dst src : Res) (g : Glob) (dstIdx : Nat)
    (dstRect srcRect : WRect) (fl : BltFlags) (b : Bool) :
    (Res.bltViaGpuTail dst src g dstIdx dstRect srcRect fl b).1 =
        (dst.prepareForBltDst g dstIdx dstRect).1 ∧
      (Res.bltViaGpuTail dst src g dstIdx dstRect srcRect fl b).2.1 = src := by
  rw [Res.bltViaGpuTail]
  rcases hp : dst.prepareForBltDst g dstIdx dstRect with ⟨dst1, g1, tgt, rect1⟩
  simp only [hp]
  constructor
  · repeat' split
    all_goals rfl
  · repeat' split
    all_goals rfl

/-- The shared GPU tail preserves resource-level I1 on both sides. -/
theorem allValid_bltViaGpuTail {dst src : Res} (g : Glob) (dstIdx : Nat)
    (dstRect srcRect : WRect) (fl : BltFlags) (b : Bool)
    (hd : dst.allValid) (hs : src.allValid) :
    ((Res.bltViaGpuTail dst src g dstIdx dstRect srcRect fl b).1).allValid ∧
      ((Res.bltViaGpuTail dst src g dstIdx dstRect srcRect fl b).2.1).allValid := by
  obtain ⟨h1, h2⟩ := bltViaGpuTail_resources dst src g dstIdx dstRect srcRect fl b
  rw [h1, h2]
  exact ⟨allValid_prepareForBltDst g dstIdx dstRect hd, hs⟩

/-- `bltViaGpu` preserves resource-level I1 on both sides. -/
theorem allValid_bltViaGpu {dst src : Res} (g : Glob) (di si : Nat)
    (dr sr : WRect) (fl : BltFlags) (hd : dst.allValid) (hs : src.allValid) :
    ((Res.bltViaGpu dst src g di si dr sr fl).1).allValid ∧
      ((Res.bltViaGpu dst src g di si dr sr fl).2.1).allValid := by
  rw [Res.bltViaGpu]
  rcases h1 : (if src.cfg.hasLockResource then src.onEntry si loadFromLockRefResource g
      else (src, g)) with ⟨src1, g1⟩
  have hs1 : src1.allValid := by
    revert h1
    split
    · intro h1
      have := allValid_onEntry si loadFromLockRefResource g hs
        (fun e g2 he => inv1_mono he (flagsLe_loadFromLockRefResource _ e g2))
      rw [h1] at this
      exact this
    · intro h1
      injection h1 with ha hb
      rw [← ha]
      exact hs
  simp only [h1]
  split
  · rcases h2 : src1.onEntry si loadMsaaResolvedResource g1 with ⟨src2, g2⟩
    have hs2 : src2.allValid := by
      have := allValid_onEntry si loadMsaaResolvedResource g1 hs1
        (fun e g3 he => inv1_mono he (flagsLe_loadMsaaResolvedResource _ e g3))
      rw [h2] at this
      exact this
    simp only [h2]
    rcases h3 : (if (dst.entry di).isMsaaUpToDate = false then
        dst.onEntry di loadMsaaResolvedResource g2 else (dst, g2)) with ⟨dst2, g3⟩
    have hd2 : dst2.allValid := by
      revert h3
      split
      · intro h3
        have := allValid_onEntry di loadMsaaResolvedResource g2 hd
          (fun e g4 he => inv1_mono he (flagsLe_loadMsaaResolvedResource _ e g4))
        rw [h3] at this
        exact this
      · intro h3
        injection h3 with ha hb
        rw [← ha]
        exact hd
    simp only [h3]
    exact allValid_bltViaGpuTail g3 di dr (src2.scaleRect sr) fl true hd2 hs2
  · rcases h2 : src1.prepareForBltSrc g1 si with ⟨src2, g2⟩
    have hs2 : src2.allValid := by
      have := allValid_prepareForBltSrc g1 si hs1
      rw [h2] at this
      exact this
    simp only [h2]
    exact allValid_bltViaGpuTail g2 di dr sr fl false hd hs2

/-- `bltViaCpu` preserves resource-level I1 on both sides. -/
theorem allValid_bltViaCpu {dst src : Res} (g : Glob) (di si : Nat)
    (hd : dst.allValid) (hs : src.allValid) :
    ((Res.bltViaCpu dst src g di si).1).allValid ∧
      ((Res.bltViaCpu dst src g di si).2.1).allValid := by
  rw [Res.bltViaCpu]
  split
  · exact ⟨hd, hs⟩
  · rcases hsrc : Res.lock src g si (decide (src.cfg.poolSysMem = false)) with ⟨src1, g1, rs⟩
    have hs1 : src1.allValid := by
      have := allValid_lock g si (decide (src.cfg.poolSysMem = false)) hs
      rw [hsrc] at this
      exact this
    simp only [hsrc]
    split
    · exact ⟨hd, hs1⟩
    · rcases hdst : Res.lock dst g1 di false with ⟨dst1, g2, rd⟩
      have hd1 : dst1.allValid := by
        have := allValid_lock g1 di false hd
        rw [hdst] at this
        exact this
      simp only [hdst]
      split
      · rcases hu1 : Res.unlock dst1 (g2.emit .cpuBlt) with ⟨dst2, g3, ru⟩
        have hd2 : dst2.allValid := by
          have h' : dst2 = dst1 := by
            have := unlock_fst dst1 (g2.emit .cpuBlt)
            rw [hu1] at this
            exact this
          rw [h']
          exact hd1
        simp only [hu1]
        rcases hu2 : Res.unlock src1 g3 with ⟨src2, g4, ru2⟩
        have hs2 : src2.allValid := by
          have h' : src2 = src1 := by
            have := unlock_fst src1 g3
            rw [hu2] at this
            exact this
          rw [h']
          exact hs1
        simp only [hu2]
        exact ⟨hd2, hs2⟩
      · rcases hu3 : Res.unlock src1 g2 with ⟨src3, g5, ru3⟩
        have hs3 : src3.allValid := by
          have h' : src3 = src1 := by
            have := unlock_fst src1 g2
            rw [hu3] at this
            exact this
          rw [h']
          exact hs1
        simp only [hu3]
        exact ⟨hd1, hs3⟩

set_option maxHeartbeats 1600000 in
/-- The compositing tail of `presentationBlt` (stated over arbitrary
inputs so it can be applied after the source preparation step): it changes
neither resource, so it preserves I1 on both sides. -/
theorem presentTail_allValid (dst s : Res) (g : Glob) (hd : dst.allValid) (hs : s.allValid) :
    ((if s.cfg.poolSysMem ∧ g.tempTextureAvail = false then ((dst, s, g, E_OUTOFMEMORY) : Res × Res × Glob × Int)
      else
        let g := if s.cfg.poolSysMem then (g.driverCall .copyRegion).2 else g
        let g :=
          if s.cfg.origFormat = D3DDDIFMT_P8 then g.emit .palettizedBlt
          else (g.driverCall .copyRegion).2
        let g := if g.presentationRect.isEmpty = false then g.emit .presentWindows else g
        let g := if g.cursorEmulated then g.emit .cursorBlt else g
        if g.tempRtAvail = false then (dst, s, g, S_OK)
        else
          let g := g.emit .presentFilter
          let g := if g.gammaRampDefault = false ∧ g.tempRtAvail then g.emit .gammaBlt else g
          let g := g.emit .clearExterior
          (dst, s, g, S_OK)).1).allValid ∧
      ((if s.cfg.poolSysMem ∧ g.tempTextureAvail = false then ((dst, s, g, E_OUTOFMEMORY) : Res × Res × Glob × Int)
        else
          let g := if s.cfg.poolSysMem then (g.driverCall .copyRegion).2 else g
          let g :=
            if s.cfg.origFormat = D3DDDIFMT_P8 then g.emit .palettizedBlt
            else (g.driverCall .copyRegion).2
          let g := if g.presentationRect.isEmpty = false then g.emit .presentWindows else g
          let g := if g.cursorEmulated then g.emit .cursorBlt else g
          if g.tempRtAvail = false then (dst, s, g, S_OK)
          else
            let g := g.emit .presentFilter
            let g := if g.gammaRampDefault = false ∧ g.tempRtAvail then g.emit .gammaBlt else g
            let g := g.emit .clearExterior
            (dst, s, g, S_OK)).2.1).allValid := by
  dsimp only
  split_ifs <;> exact ⟨hd, hs⟩

/-- `presentationBlt` preserves resource-level I1 on both sides: the
source demotion keeps the system-memory flag it is guarded by, and the
compositing tail touches no lock data. -/
theorem allValid_presentationBlt {dst src : Res} (g : Glob) (di si : Nat)
    (hd : dst.allValid) (hs : src.allValid) :
    ((Res.presentationBlt dst src g di si).1).allValid ∧
      ((Res.presentationBlt dst src g di si).2.1).allValid := by
  have hdem : (presentSrcDemote src si).allValid := by
    rw [presentSrcDemote]
    split
    · next hg => exact allValid_setEntry_lt hs (fun _ => Or.inl hg.1)
    · exact hs
  have hS : ((presentSrcDemote src si).setEntry si
      (prepareForGpuReadE (presentSrcDemote src si).cfg
        ((presentSrcDemote src si).entry si) g).1).allValid :=
    allValid_setEntry_lt hdem (fun hi => inv1_prepareForGpuReadE _ _ _ (hdem si hi))
  rw [Res.presentationBlt]
  by_cases hlk : src.cfg.hasLockResource = true
  · rw [if_pos hlk]
    exact presentTail_allValid dst
      ((presentSrcDemote src si).setEntry si
        (prepareForGpuReadE (presentSrcDemote src si).cfg
          ((presentSrcDemote src si).entry si) g).1)
      ((prepareForGpuReadE (presentSrcDemote src si).cfg
        ((presentSrcDemote src si).entry si) g).2.1)
      hd hS
  · rw [if_neg hlk]
    exact presentTail_allValid dst src g hd hs

/-- The blt router preserves resource-level I1 on the destination and on
the tracked source when present. -/
theorem allValid_blt {dst : Res} {srcOpt : Option Res} (g : Glob) (di si : Nat)
    (dr sr : WRect) (fl : BltFlags)
    (hd : dst.allValid) (hso : ∀ s, srcOpt = some s → s.allValid) :
    ((Res.blt dst srcOpt g di si dr sr fl).1).allValid ∧
      (∀ s2, (Res.blt dst srcOpt g di si dr sr fl).2.1 = some s2 → s2.allValid) := by
  cases srcOpt with
  | none =>
    rw [Res.blt]
    split
    · exact ⟨hd, hso⟩
    · split
      · exact ⟨hd, hso⟩
      · constructor
        · rcases hp : dst.prepareForBltDst g di dr with ⟨dst1, g1, tgt, rect1⟩
          have h1 : dst1.allValid := by
            have := allValid_prepareForBltDst g di dr hd
            rw [hp] at this
            exact this
          simp only [hp]
          exact h1
        · intro s2 h2
          exact Option.noConfusion h2
  | some src =>
    have hs : src.allValid := hso src rfl
    rw [Res.blt]
    split
    · exact ⟨hd, hso⟩
    · split
      · exact ⟨hd, hso⟩
      · split
        · exact ⟨hd, fun s2 h2 => by cases h2; exact hs⟩
        · split
          · exact ⟨hd, fun s2 h2 => by cases h2; exact hs⟩
          · split
            · rcases hp : Res.presentationBlt dst src g di si with ⟨dst1, src1, g1, res⟩
              have h12 := allValid_presentationBlt g di si hd hs
              rw [hp] at h12
              simp only [hp]
              exact ⟨h12.1, fun s2 h2 => by cases h2; exact h12.2⟩
            · rcases hc : Res.bltViaCpu dst src g di si with ⟨dst1, src1, g1, res1⟩
              have hcv := allValid_bltViaCpu g di si hd hs
              rw [hc] at hcv
              simp only [hc]
              split
              · exact ⟨hcv.1, fun s2 h2 => by cases h2; exact hcv.2⟩
              · rcases hg : Res.bltViaGpu dst1 src1 g1 di si dr sr fl
                  with ⟨dst2, src2, g2, res2⟩
                have hgv := allValid_bltViaGpu g1 di si dr sr fl hcv.1 hcv.2
                rw [hg] at hgv
                simp only [hg]
                exact ⟨hgv.1, fun s2 h2 => by cases h2; exact hgv.2⟩

/-- The reconfiguration loop preserves resource-level I1. -/
theorem allValid_updateConfigLoop {r : Res} (g : Glob) (n : Nat) (h : r.allValid) :
    ((Res.updateConfigLoop r g n).1).allValid := by
  induction n generalizing r g with
  | zero => exact h
  | succ n ih =>
    rw [Res.updateConfigLoop]
    rcases hl : Res.updateConfigLoop r g n with ⟨r1, g1⟩
    have h1 : r1.allValid := by
      have := ih g h
      rw [hl] at this
      exact this
    simp only [hl]
    exact allValid_onEntry n updateConfigEntry g1 h1
      (fun e g2 he => inv1_updateConfigEntry r1.cfg e g2 he)

/-- The reconfiguration loop never changes the vector length. -/
theorem updateConfigLoop_size (r : Res) (g : Glob) (n : Nat) :
    ((Res.updateConfigLoop r g n).1).size = r.size := by
  induction n generalizing r g with
  | zero => rfl
  | succ n ih =>
    rw [Res.updateConfigLoop]
    rcases hl : Res.updateConfigLoop r g n with ⟨r1, g1⟩
    have h1 : r1.size = r.size := by
      have := ih r g
      rw [hl] at this
      exact this
    simp only [hl]
    exact h1

/-- `updateConfig` never changes the vector length. -/
theorem updateConfig_size (r : Res) (g : Glob) (p : UCParams) :
    ((r.updateConfig g p).1).size = r.size := by
  simp only [Res.updateConfig]
  split_ifs <;> first | rfl | exact updateConfigLoop_size _ _ _

/-- `updateConfig` preserves resource-level I1. -/
theorem allValid_updateConfig {r : Res} (g : Glob) (p : UCParams) (h : r.allValid) :
    ((r.updateConfig g p).1).allValid := by
  simp only [Res.updateConfig]
  split_ifs <;> first | exact h | exact allValid_updateConfigLoop _ _ h

/-- Every resource the constructor actually returns satisfies I1: the
bootstrap paths mark system memory (and every existing tier) valid, and
the remaining path returns an empty lock-data vector. -/
theorem mkResource_allValid (p : CreateParams) (g : Glob) (env : CreateEnv) :
    ∀ r, (mkResource p g env).2 = Except.ok r → r.allValid := by
  intro r hr
  simp only [mkResource] at hr
  repeat' split at hr
  all_goals first
    | exact Except.noConfusion hr
    | (injection hr with h
       subst h
       intro i hi
       rw [updateConfig_size] at hi
       simp at hi)
    | (injection hr with h
       subst h
       intro i hi
       exact Or.inl rfl)

/-- Fixture: a plain blt flag set. -/
def flFix : BltFlags := ⟨false, false, false, false, false, false⟩

/-- C2: Invariant I1 — every resource the constructor returns has at least
one validity flag true on every subresource, and each public operation
(`lock`, `blt`, `colorFill`, the `updateConfig` reconfiguration) preserves
this for every involved resource; in particular the reconfiguration loop
body first loads video memory from a representation held only in the
multisample/resolved surfaces, so video memory is valid when it then
clears their flags. -/
theorem c2_invariant_I1 (p : CreateParams) (g0 : Glob) (env : CreateEnv)
    (r : Res) (srcOpt : Option Res) (g : Glob) (i si : Nat) (ro : Bool)
    (rect dstRect srcRect : WRect) (fl : BltFlags) (uc : UCParams)
    (hr : r.allValid) (hso : ∀ s, srcOpt = some s → s.allValid) :
    (∀ r2, (mkResource p g0 env).2 = Except.ok r2 → r2.allValid) ∧
    ((Res.lock r g i ro).1).allValid ∧
    ((Res.colorFill r g i rect).1).allValid ∧
    ((Res.blt r srcOpt g i si dstRect srcRect fl).1).allValid ∧
    (∀ s2, (Res.blt r srcOpt g i si dstRect srcRect fl).2.1 = some s2 → s2.allValid) ∧
    ((r.updateConfig g uc).1).allValid ∧
    (∀ c e g1, (e.isMsaaUpToDate = true ∨ e.isMsaaResolvedUpToDate = true) →
      ((updateConfigEntry c e g1).1).isVidMemUpToDate = true ∧
      ((updateConfigEntry c e g1).1).isMsaaUpToDate = false ∧
      ((updateConfigEntry c e g1).1).isMsaaResolvedUpToDate = false) := by
  obtain ⟨hb1, hb2⟩ := allValid_blt g i si dstRect srcRect fl hr hso
  refine ⟨mkResource_allValid p g0 env, allValid_lock g i ro hr,
    allValid_colorFill g i rect hr, hb1, hb2, allValid_updateConfig g uc hr, ?_⟩
  intro c e g1 hm
  rw [updateConfigEntry, if_pos hm]
  rcases hv : loadVidMemResource c e g1 with ⟨e1, g2⟩
  have h1 : e1.isVidMemUpToDate = true := by
    have := loadVidMemResource_vid c e g1
    rw [hv] at this
    exact this
  simp only [hv]
  exact ⟨h1, trivial, trivial⟩

/-- C2 witness: the preservation theorem at the video-memory depth-buffer
fixture locking subresource 0 for writing. -/
theorem c2_witness : ((Res.lock resDepthPlain gFix 0 false).1).allValid :=
  (c2_invariant_I1 pBadVB gFix envFix resDepthPlain (some resStagedRT) gFix 0 0 false
      ⟨0, 0, 1, 1⟩ ⟨0, 0, 1, 1⟩ ⟨0, 0, 1, 1⟩ flFix ucFix
      (fun j _ => Or.inl rfl)
      (fun s hs => by
        injection hs with h
        rw [← h]
        intro j _
        exact Or.inl rfl)).2.1
